import Mathlib

/-!
# Verification of the astra position risk & exit-management subsystem

Shallow embedding of the position ledger (`store/trades.js`), the cooldown
register (`utils/cooldownStore.js`), the market guard (`utils/marketGuard.js`),
the slow exit monitor and sell executor (`monitor/activeTrades.js`), and the
fast stop-loss monitor (`monitor/fastStopLoss.js`).

Conventions of the embedding:
* JS numbers become rationals (`ℚ`); timestamps (`Date.now()`) become `ℕ`
  milliseconds.  JS subtraction `now - WINDOW` used as a cutoff compares the
  same way under truncated `ℕ` subtraction because all timestamps are `≥ 0`.
* The JS idiom `x || d` on a numeric field (`0` and `null`/`undefined` falsy)
  is modelled by `jsOrQ` / `jsOr`.
* Side-effecting stores become explicit state records threaded through the
  functions; disk persistence (a full-document rewrite of the in-memory value)
  is identified with the in-memory value itself.
* Network calls (price fetch, quote, sign/broadcast) become parameters: an
  `Option` for a fetch that can fail, and a `Bool` (`sellOk`) for the success
  of the build/sign/broadcast sequence inside `executeSell`'s `try` block.
* `throw` in store operations becomes `Except StoreErr`; the slow monitor
  propagates such errors to its caller's catch, hence returns `Except`.
-/

namespace Astra

/-- JS `x || d` for a number-typed variable (`0` is falsy). -/
def jsOrQ (x d : ℚ) : ℚ := if x = 0 then d else x

/-- JS `x || d` for a possibly-missing number (`undefined`/`null`/`0` falsy). -/
def jsOr (x : Option ℚ) (d : ℚ) : ℚ :=
  match x with
  | none => d
  | some v => if v = 0 then d else v

/-- JS truthiness of a number (`0` falsy). -/
def jsTruthyQ (x : ℚ) : Bool := x != 0

-- ── Position ledger (store/trades.js) ────────────────────────────────────────

inductive Strategy
  | scalp
  | momentum
  | breakout
  deriving DecidableEq, Repr

inductive Status
  | active
  | completed
  | stopped
  deriving DecidableEq, Repr

/-- Exit / sell reason codes appearing in the source. -/
inductive Reason
  | target
  | stop_loss
  | market_guard_red
  | market_guard_orange
  | trailing_stop
  | partial_target
  | final_target
  | mc_target
  | sell_pressure
  deriving DecidableEq, Repr

/-- A position record (one element of the `trades` array in `trades.js`).
Fields not consulted by the verified operations (symbol, tx signatures,
quality score, ...) are omitted. -/
structure Trade where
  id : Nat
  strategy : Strategy
  token_address : Nat
  entry_price : ℚ
  amount_sol : ℚ
  token_amount : ℚ
  stop_loss_percent : ℚ
  exit_mc_min : Option ℚ
  highest_price : ℚ
  partial_exit_executed : Bool
  status : Status
  entry_time : Nat
  exit_time : Option Nat
  exit_price : Option ℚ
  pnl_percent : ℚ
  pnl_sol : ℚ
  deriving DecidableEq, Repr

/-- Aggregate P&L state (`state.json`). `daily_reset_date` is a day index
standing for `new Date().toDateString()`. -/
structure AggState where
  daily_pnl_sol : ℚ
  daily_reset_date : Nat
  total_pnl_sol : ℚ
  trade_count : Nat
  deriving DecidableEq, Repr

/-- The trade store: the `trades` array plus the aggregate `state`. -/
structure TradeStore where
  trades : List Trade
  state : AggState
  deriving DecidableEq, Repr

/-- Errors thrown by the store (`throw new Error("Trade not found: ...")`).
The source has no already-closed error. -/
inductive StoreErr
  | notFound (id : Nat)
  deriving DecidableEq, Repr

/-- `resetDailyIfNeeded` in `trades.js`. -/
def resetDailyIfNeeded (st : AggState) (today : Nat) : AggState :=
  if st.daily_reset_date ≠ today then
    { st with daily_pnl_sol := 0, daily_reset_date := today }
  else st

/-- Fields passed by the strategy scanners to `createTrade` (no `status`,
`exit_time`, `highest_price` or P&L fields are in `data`). -/
structure CreateData where
  strategy : Strategy
  token_address : Nat
  entry_price : ℚ
  amount_sol : ℚ
  token_amount : ℚ
  stop_loss_percent : ℚ
  exit_mc_min : Option ℚ
  deriving DecidableEq, Repr

/-- `createTrade` in `trades.js`: status `active`, `exit_time` null,
`highest_price` initialised to the entry price, P&L zeroed. -/
def createTrade (s : TradeStore) (newId : Nat) (now : Nat) (data : CreateData) :
    TradeStore × Trade :=
  let trade : Trade :=
    { id := newId
      status := .active
      entry_time := now
      exit_time := none
      highest_price := data.entry_price
      partial_exit_executed := false
      pnl_percent := 0
      pnl_sol := 0
      strategy := data.strategy
      token_address := data.token_address
      entry_price := data.entry_price
      amount_sol := data.amount_sol
      token_amount := data.token_amount
      stop_loss_percent := data.stop_loss_percent
      exit_mc_min := data.exit_mc_min
      exit_price := none }
  ({ s with trades := s.trades ++ [trade] }, trade)

/-- Replace the first trade with the given id (`trades[idx] = {...}` after
`findIndex`). -/
def updateFirst (ts : List Trade) (id : Nat) (f : Trade → Trade) : List Trade :=
  match ts with
  | [] => []
  | t :: rest => if t.id = id then f t :: rest else t :: updateFirst rest id f

/-- Look up a trade by id (`trades.find(t => t.id === id)`). -/
def findTrade (ts : List Trade) (id : Nat) : Option Trade :=
  ts.find? (fun t => t.id = id)

/-- `updateTrade` in `trades.js`: merge fields into the first trade with the
given id, throwing `Trade not found` if the id is unknown.  The concrete merge
object of each call site becomes the function `f`. -/
def updateTrade (s : TradeStore) (id : Nat) (f : Trade → Trade) :
    Except StoreErr (TradeStore × Trade) :=
  match findTrade s.trades id with
  | none => .error (.notFound id)
  | some t => .ok ({ s with trades := updateFirst s.trades id f }, f t)

/-- Realized P&L percentage computed by `closeTrade`
(`((exitPrice - trade.entry_price) / trade.entry_price) * 100`). -/
def closePnlPercent (t : Trade) (exitPrice : ℚ) : ℚ :=
  (exitPrice - t.entry_price) / t.entry_price * 100

/-- Realized P&L in SOL computed by `closeTrade`
(`trade.amount_sol * (pnlPercent / 100)`). -/
def closePnlSol (t : Trade) (exitPrice : ℚ) : ℚ :=
  t.amount_sol * (closePnlPercent t exitPrice / 100)

/-- The field merge performed by `closeTrade` on the found trade `t0`: status
`stopped` exactly for reason `stop_loss`, else `completed`. -/
def closeMerge (t0 : Trade) (exitPrice : ℚ) (reason : Reason) (now : Nat) : Trade → Trade :=
  fun t =>
    { t with
      status := if reason = .stop_loss then .stopped else .completed
      exit_price := some exitPrice
      exit_time := some now
      pnl_percent := closePnlPercent t0 exitPrice
      pnl_sol := closePnlSol t0 exitPrice }

/-- The aggregate-state update performed by `closeTrade`: daily reset if the
day rolled over, then add the realized P&L to the daily and total counters and
bump the trade count. -/
def closeAgg (st : AggState) (t0 : Trade) (exitPrice : ℚ) (today : Nat) : AggState :=
  let st0 := resetDailyIfNeeded st today
  { st0 with
    daily_pnl_sol := st0.daily_pnl_sol + closePnlSol t0 exitPrice
    total_pnl_sol := st0.total_pnl_sol + closePnlSol t0 exitPrice
    trade_count := st0.trade_count + 1 }

/-- `closeTrade` in `trades.js`.  Finds the trade (throwing `NotFound` when the
id is unknown), computes realized P&L from the exit price, merges the exit
fields, and adds the realized P&L to the aggregate counters.  The source
performs no check that the trade is still active. -/
def closeTrade (s : TradeStore) (id : Nat) (exitPrice : ℚ) (reason : Reason)
    (now today : Nat) : Except StoreErr (TradeStore × Trade) :=
  match findTrade s.trades id with
  | none => .error (.notFound id)
  | some trade =>
    match updateTrade s id (closeMerge trade exitPrice reason now) with
    | .error e => .error e
    | .ok (s1, updated) =>
      .ok ({ s1 with state := closeAgg s1.state trade exitPrice today }, updated)

-- ── Cooldown register (utils/cooldownStore.js, strategies/momentum.js) ───────

/-- Constants of `strategies/momentum.js` (milliseconds). -/
def CONSECUTIVE_STOP_WINDOW_MS : Nat := 30 * 60 * 1000

def CONSECUTIVE_STOP_THRESHOLD : Nat := 2

def CONSECUTIVE_STOP_PAUSE_MS : Nat := 90 * 60 * 1000

/-- State of `data/cooldowns.json` (`cooldownStore.js`). -/
structure CooldownState where
  stopLossCooldowns : Nat → Option Nat
  consecutiveStopPauseUntil : Option Nat
  recentStopLosses : List Nat

/-- `setStopLossCooldown` in `cooldownStore.js`: record `Date.now()` for the
token. -/
def setStopLossCooldown (st : CooldownState) (token now : Nat) : CooldownState :=
  { st with stopLossCooldowns := fun a => if a = token then some now else st.stopLossCooldowns a }

/-- `setConsecutiveStopPause` in `cooldownStore.js`: store the expiry and clear
the recent-stop list. -/
def setConsecutiveStopPause (st : CooldownState) (until_ : Nat) : CooldownState :=
  { st with consecutiveStopPauseUntil := some until_, recentStopLosses := [] }

/-- `clearConsecutiveStopPause` in `cooldownStore.js`. -/
def clearConsecutiveStopPause (st : CooldownState) : CooldownState :=
  { st with consecutiveStopPauseUntil := none }

/-- `recordStopLossForConsecutiveCheck` in `strategies/momentum.js`: append
`now`, drop entries older than the 30-minute window, and either trigger the
90-minute pause (clearing the list) or save the pruned list. -/
def recordStopLossForConsecutiveCheck (st : CooldownState) (now : Nat) : CooldownState :=
  let recentStops := (st.recentStopLosses ++ [now]).filter
    (fun ts => now - CONSECUTIVE_STOP_WINDOW_MS ≤ ts)
  if CONSECUTIVE_STOP_THRESHOLD ≤ recentStops.length then
    setConsecutiveStopPause st (now + CONSECUTIVE_STOP_PAUSE_MS)
  else
    { st with recentStopLosses := recentStops }

/-- `isConsecutiveStopPauseActive` in `strategies/momentum.js`: a pause read
past its expiry is treated as inactive and cleared lazily. -/
def isConsecutiveStopPauseActive (st : CooldownState) (now : Nat) : Bool × CooldownState :=
  match st.consecutiveStopPauseUntil with
  | none => (false, st)
  | some pauseUntil =>
    if now < pauseUntil then (true, st)
    else (false, clearConsecutiveStopPause st)

/-- `recordMomentumStopLoss` in `strategies/momentum.js`: per-token cooldown
timestamp plus consecutive-stop bookkeeping. -/
def recordMomentumStopLoss (st : CooldownState) (token now : Nat) : CooldownState :=
  recordStopLossForConsecutiveCheck (setStopLossCooldown st token now) now

-- ── Market guard (utils/marketGuard.js) ──────────────────────────────────────

inductive AlertLevel
  | NONE
  | YELLOW
  | ORANGE
  | RED
  deriving DecidableEq, Repr

structure PricePoint where
  price : ℚ
  timestamp : Nat
  deriving DecidableEq, Repr

structure VolPoint where
  changePct : ℚ
  timestamp : Nat
  deriving DecidableEq, Repr

/-- In-memory (and persisted) market-guard state.  `lastBtcCheckAt` rate
limiting is outside this embedding: a modelled check cycle is one that passed
the rate limiter. -/
structure GuardState where
  btcPriceHistory : List PricePoint
  btcVolatilityHistory : List VolPoint
  baselineVolatility : Option ℚ
  currentAlertLevel : AlertLevel
  alertTriggeredAt : Option Nat
  stableHoursCount : ℚ
  deriving DecidableEq, Repr

def ALL_CLEAR_STABLE_HOURS : ℚ := 4

def CHECK_INTERVAL_MS : Nat := 5 * 60 * 1000

def YELLOW_BTC_DROP_1H_PCT : ℚ := 3

def ORANGE_BTC_DROP_4H_PCT : ℚ := 4

def ORANGE_LIQUIDATION_USD : Nat := 150000000

def RED_BTC_DROP_30M_PCT : ℚ := 5

def RED_VOLATILITY_MULTIPLIER : ℚ := 10

/-- `recordBtcPrice`: push the sample and shift out entries older than 5h. -/
def recordBtcPrice (hist : List PricePoint) (price : ℚ) (now : Nat) : List PricePoint :=
  (hist ++ [({ price := price, timestamp := now } : PricePoint)]).dropWhile
    (fun e => e.timestamp < now - 5 * 60 * 60 * 1000)

/-- `getBtcDropOverWindow`: percentage decline between the oldest and newest
entries inside the window (`0` when fewer than two entries). -/
def getBtcDropOverWindow (hist : List PricePoint) (now windowMs : Nat) : ℚ :=
  if hist.length < 2 then 0
  else
    let w := hist.filter (fun e => now - windowMs ≤ e.timestamp)
    if w.length < 2 then 0
    else
      let oldest := ((w.head?).map PricePoint.price).getD 0
      let newest := ((w.getLast?).map PricePoint.price).getD 0
      (oldest - newest) / oldest * 100

/-- `recordBtcVolatility`, run after `recordBtcPrice`: absolute percent change
from the immediately preceding price, pruned to 2h; the baseline is fixed from
the first 6 samples once `!baselineVolatility` and at least 6 samples exist. -/
def recordBtcVolatility (priceHist : List PricePoint) (volHist : List VolPoint)
    (baseline : Option ℚ) (price : ℚ) (now : Nat) : List VolPoint × Option ℚ :=
  if priceHist.length < 2 then (volHist, baseline)
  else
    let prev := ((priceHist.get? (priceHist.length - 2)).map PricePoint.price).getD 0
    let changePct := |((price - prev) / prev)| * 100
    let volHist1 := (volHist ++ [({ changePct := changePct, timestamp := now } : VolPoint)]).dropWhile
      (fun e => e.timestamp < now - 2 * 60 * 60 * 1000)
    if (baseline = none ∨ baseline = some 0) ∧ 6 ≤ volHist1.length then
      let base := volHist1.take 6
      (volHist1, some ((base.map VolPoint.changePct).sum / base.length))
    else (volHist1, baseline)

/-- `getCurrentVolatility`: mean of the last 3 volatility samples. -/
def getCurrentVolatility (volHist : List VolPoint) : ℚ :=
  if volHist.length = 0 then 0
  else
    let recent := volHist.drop (volHist.length - 3)
    (recent.map VolPoint.changePct).sum / recent.length

/-- `fetchHourlyLiquidations`: proxy returning 200M USD when the 4h drop is at
least the orange threshold, else 0. -/
def fetchHourlyLiquidations (hist : List PricePoint) (now : Nat) : Nat :=
  if ORANGE_BTC_DROP_4H_PCT ≤ getBtcDropOverWindow hist now (4 * 60 * 60 * 1000) then
    200000000
  else 0

/-- `setAlert`: a no-op when the level is unchanged; entering `NONE` clears the
trigger timestamp and the stable-duration accumulator; entering an alert level
stamps the trigger time and zeroes the accumulator. -/
def setAlert (st : GuardState) (level : AlertLevel) (now : Nat) : GuardState :=
  if level = st.currentAlertLevel then st
  else if level = .NONE then
    { st with currentAlertLevel := .NONE, alertTriggeredAt := none, stableHoursCount := 0 }
  else
    { st with currentAlertLevel := level, alertTriggeredAt := some now, stableHoursCount := 0 }

/-- `checkIfStable`: only runs at a non-`NONE` level; a stable cycle adds the
check interval to the accumulator and de-escalates to `NONE` at 4 accumulated
hours; a non-stable cycle zeroes the accumulator. -/
def checkIfStable (st : GuardState) (btcDrop1h btcDrop30m : ℚ) (liquidations now : Nat) :
    GuardState :=
  if st.currentAlertLevel = .NONE then st
  else if btcDrop1h < 1 ∧ btcDrop30m < 1 ∧ liquidations < 50000000 then
    let sh := st.stableHoursCount + (CHECK_INTERVAL_MS : ℚ) / (60 * 60 * 1000)
    if ALL_CLEAR_STABLE_HOURS ≤ sh then
      setAlert { st with stableHoursCount := sh } .NONE now
    else { st with stableHoursCount := sh }
  else { st with stableHoursCount := 0 }

/-- The guard state after the two history-recording steps of a check cycle. -/
def guardRecord (st : GuardState) (price : ℚ) (now : Nat) : GuardState :=
  let hist := recordBtcPrice st.btcPriceHistory price now
  let vb := recordBtcVolatility hist st.btcVolatilityHistory st.baselineVolatility price now
  { st with btcPriceHistory := hist, btcVolatilityHistory := vb.1, baselineVolatility := vb.2 }

/-- JS truthiness of `baselineVolatility` (null or `0` falsy). -/
def baselineTruthy (baseline : Option ℚ) : Prop :=
  match baseline with
  | none => False
  | some b => b ≠ 0

instance (b : Option ℚ) : Decidable (baselineTruthy b) := by
  unfold baselineTruthy; exact match b with
  | none => inferInstanceAs (Decidable False)
  | some _ => inferInstanceAs (Decidable _)

/-- The volatility multiplier of a check cycle
(`baselineVolatility && baselineVolatility > 0 ? currentVol / baselineVolatility : 0`). -/
def volatilityMultiplier (st : GuardState) : ℚ :=
  match st.baselineVolatility with
  | none => 0
  | some b => if 0 < b then getCurrentVolatility st.btcVolatilityHistory / b else 0

/-- The rolling drop recomputed from the post-recording history of a check
cycle (the source computes it once into a local). -/
def guardDrop (st : GuardState) (price : ℚ) (now windowMs : Nat) : ℚ :=
  getBtcDropOverWindow (guardRecord st price now).btcPriceHistory now windowMs

/-- The liquidation proxy of a check cycle. -/
def guardLiq (st : GuardState) (price : ℚ) (now : Nat) : Nat :=
  fetchHourlyLiquidations (guardRecord st price now).btcPriceHistory now

/-- The RED threshold of a check cycle: 30-minute drop at or above 5%, or a
truthy baseline with a volatility multiplier at or above 10×. -/
def guardRedCond (st : GuardState) (price : ℚ) (now : Nat) : Prop :=
  RED_BTC_DROP_30M_PCT ≤ guardDrop st price now (30 * 60 * 1000) ∨
    (baselineTruthy (guardRecord st price now).baselineVolatility ∧
      RED_VOLATILITY_MULTIPLIER ≤ volatilityMultiplier (guardRecord st price now))

instance (st : GuardState) (price : ℚ) (now : Nat) : Decidable (guardRedCond st price now) := by
  unfold guardRedCond; infer_instance

/-- `runMarketGuardCheck` past the rate limiter: `btcPrice = none` models a
failed fetch (cycle skipped entirely).  Threshold evaluation is RED, then
ORANGE, then YELLOW, transitioning on the first match, else the stability
check. -/
def runMarketGuardCheck (st : GuardState) (btcPrice : Option ℚ) (now : Nat) : GuardState :=
  match btcPrice with
  | none => st
  | some price =>
    let st2 := guardRecord st price now
    if guardRedCond st price now then
      setAlert st2 .RED now
    else if ORANGE_LIQUIDATION_USD ≤ guardLiq st price now then
      setAlert st2 .ORANGE now
    else if YELLOW_BTC_DROP_1H_PCT ≤ guardDrop st price now (60 * 60 * 1000) then
      setAlert st2 .YELLOW now
    else
      checkIfStable st2 (guardDrop st price now (60 * 60 * 1000))
        (guardDrop st price now (30 * 60 * 1000)) (guardLiq st price now) now

/-- `isRedAlert` in `marketGuard.js`. -/
def isRedAlert (level : AlertLevel) : Bool := level = .RED

/-- `isOrangeOrAbove` in `marketGuard.js`. -/
def isOrangeOrAbove (level : AlertLevel) : Bool := level = .ORANGE || level = .RED

-- ── Monitors and sell executor (activeTrades.js, fastStopLoss.js) ────────────

/-- The market-data record consumed by the monitors (DexScreener shape; the
fast monitor synthesizes one from a bare price). -/
structure TokenData where
  price_usd : ℚ
  market_cap : ℚ
  liquidity_usd : ℚ
  price_change_5m : ℚ
  buy_pressure : ℚ
  deriving DecidableEq, Repr

/-- The settings fields consulted by the verified exit logic. -/
structure Settings where
  stop_loss_percent : ℚ
  trailing_stop_enabled : Bool
  trailing_stop_percent : ℚ
  scalp_exit_mc : ℚ
  momentum_exit_mc_min : ℚ
  breakout_target_gain_percent : ℚ
  deriving DecidableEq, Repr

/-- The mutable resources touched by a monitor cycle: the trade store, the
cooldown register, and the in-memory breakout re-entry map
(`recentExits` in `strategies/breakout.js`). -/
structure SysState where
  store : TradeStore
  cooldowns : CooldownState
  breakoutExits : Nat → Option Nat

/-- `recordBreakoutExit` in `strategies/breakout.js`: in-memory re-entry
cooldown stamp, distinct from the cooldown register. -/
def recordBreakoutExit (sys : SysState) (token now : Nat) : SysState :=
  { sys with breakoutExits := fun a => if a = token then some now else sys.breakoutExits a }

/-- One `executeSell` invocation recorded for observation: the reason code and
the intended sell percentage passed by the caller. -/
structure SellCall where
  reason : Reason
  sellPercent : ℚ
  deriving DecidableEq, Repr

/-- A per-trade evaluation outcome: the updated resources and the sell call
issued, if any. -/
structure StepOut where
  sys : SysState
  sell : Option SellCall

/-- The field merge of `executeSell`'s partial-exit branch: mark the partial
exit and reduce the held quantity to
`trade.token_amount - Math.floor(trade.token_amount * 0.8)`. -/
def partialMerge (trade : Trade) : Trade → Trade := fun t =>
  { t with
    partial_exit_executed := true
    token_amount := trade.token_amount - ((trade.token_amount * (4 / 5) : ℚ).floor : ℚ) }

/-- The store mutation of `executeSell` in `activeTrades.js`.  The slippage
computation and the quote/build/sign/broadcast interaction affect no ledger
state; their combined success is the parameter `sellOk` (the body of the `try`
up to obtaining the signature).  On success, a `partial_target` reason applies
`partialMerge`; any other reason calls `closeTrade` at the current price.  Any
failure (including a store throw) is caught and leaves the store unchanged.
`sellPercent` is consulted only by the slippage computation. -/
def executeSellStore (store : TradeStore) (trade : Trade) (token : TokenData)
    (_settings : Settings) (reason : Reason) (_sellPercent : ℚ) (sellOk : Bool)
    (now today : Nat) : TradeStore :=
  if sellOk then
    if reason = .partial_target then
      match updateTrade store trade.id (partialMerge trade) with
      | .ok (s1, _) => s1
      | .error _ => store
    else
      match closeTrade store trade.id token.price_usd reason now today with
      | .ok (s1, _) => s1
      | .error _ => store
  else store

/-- `executeSell` in `activeTrades.js`: it mutates only the trade store (the
cooldown register and the breakout re-entry map are untouched by it). -/
def executeSell (sys : SysState) (trade : Trade) (token : TokenData) (settings : Settings)
    (reason : Reason) (sellPercent : ℚ) (sellOk : Bool) (now today : Nat) : SysState :=
  { sys with store :=
      executeSellStore sys.store trade token settings reason sellPercent sellOk now today }

/-- Helper: record a sell call and run `executeSell`. -/
def doSell (sys : SysState) (trade : Trade) (token : TokenData) (settings : Settings)
    (reason : Reason) (sellPercent : ℚ) (sellOk : Bool) (now today : Nat) : StepOut :=
  { sys := executeSell sys trade token settings reason sellPercent sellOk now today
    sell := some { reason := reason, sellPercent := sellPercent } }

/-- `checkScalpExit` in `activeTrades.js`. -/
def checkScalpExit (sys : SysState) (trade : Trade) (token : TokenData) (pnlPercent : ℚ)
    (settings : Settings) (sellOk : Bool) (now today : Nat) : StepOut :=
  if trade.partial_exit_executed = false ∧ 70 ≤ pnlPercent then
    doSell sys trade token settings .partial_target 80 sellOk now today
  else if trade.partial_exit_executed = true ∧ 100 ≤ pnlPercent then
    doSell sys trade token settings .final_target 100 sellOk now today
  else if settings.scalp_exit_mc ≤ token.market_cap then
    let sellPct : ℚ := if trade.partial_exit_executed then 100 else 80
    doSell sys trade token settings .mc_target sellPct sellOk now today
  else { sys := sys, sell := none }

/-- `checkMomentumExit` in `activeTrades.js` (`exit_mc_max` is read but not
consulted by the condition). -/
def checkMomentumExit (sys : SysState) (trade : Trade) (token : TokenData)
    (settings : Settings) (sellOk : Bool) (now today : Nat) : StepOut :=
  let exitMcMin := jsOr trade.exit_mc_min settings.momentum_exit_mc_min
  if exitMcMin ≤ token.market_cap then
    doSell sys trade token settings .mc_target 100 sellOk now today
  else { sys := sys, sell := none }

/-- `checkBreakoutExit` in `activeTrades.js`. -/
def checkBreakoutExit (sys : SysState) (trade : Trade) (token : TokenData) (pnlPercent : ℚ)
    (settings : Settings) (sellOk : Bool) (now today : Nat) : StepOut :=
  if settings.breakout_target_gain_percent ≤ pnlPercent then
    doSell sys trade token settings .target 100 sellOk now today
  else if token.buy_pressure < 40 ∧ 0 < pnlPercent then
    doSell sys trade token settings .sell_pressure 100 sellOk now today
  else { sys := sys, sell := none }

/-- Unrealized P&L percent from the current price vs the entry price
(`((currentPrice - trade.entry_price) / trade.entry_price) * 100`). -/
def pnlPercentOf (trade : Trade) (currentPrice : ℚ) : ℚ :=
  (currentPrice - trade.entry_price) / trade.entry_price * 100

/-- `trade.stop_loss_percent || settings.stop_loss_percent`. -/
def effStopLoss (trade : Trade) (settings : Settings) : ℚ :=
  jsOrQ trade.stop_loss_percent settings.stop_loss_percent

/-- Rule 1 of both monitors: market guard RED and guard-sensitive (momentum)
strategy. -/
def redRule (trade : Trade) (guard : AlertLevel) : Prop :=
  isRedAlert guard = true ∧ trade.strategy = .momentum

instance (t : Trade) (g : AlertLevel) : Decidable (redRule t g) := by
  unfold redRule; infer_instance

/-- Rule 2 of both monitors: market guard ORANGE or above, momentum strategy,
and unrealized P&L at or below the halved (tightened) stop. -/
def orangeRule (trade : Trade) (settings : Settings) (guard : AlertLevel)
    (currentPrice : ℚ) : Prop :=
  isOrangeOrAbove guard = true ∧ trade.strategy = .momentum ∧
    pnlPercentOf trade currentPrice ≤ -(effStopLoss trade settings * (1 / 2))

instance (t : Trade) (s : Settings) (g : AlertLevel) (p : ℚ) :
    Decidable (orangeRule t s g p) := by
  unfold orangeRule; infer_instance

/-- Rule 3 of the slow monitor: trailing stop enabled, a truthy
`highest_price`, the drop from the high at or beyond the trailing percent, and
the position in profit. -/
def trailingRule (trade : Trade) (settings : Settings) (currentPrice : ℚ) : Prop :=
  settings.trailing_stop_enabled = true ∧ jsTruthyQ trade.highest_price = true ∧
    (currentPrice - trade.highest_price) / trade.highest_price * 100
        ≤ -settings.trailing_stop_percent ∧
    0 < pnlPercentOf trade currentPrice

instance (t : Trade) (s : Settings) (p : ℚ) : Decidable (trailingRule t s p) := by
  unfold trailingRule; infer_instance

/-- Rule 4 of both monitors: unrealized P&L at or below minus the effective
stop-loss percent. -/
def stopLossRule (trade : Trade) (settings : Settings) (currentPrice : ℚ) : Prop :=
  pnlPercentOf trade currentPrice ≤ -(effStopLoss trade settings)

instance (t : Trade) (s : Settings) (p : ℚ) : Decidable (stopLossRule t s p) := by
  unfold stopLossRule; infer_instance

/-- The cooldown-register write both monitors perform on the momentum
stop-loss and guard-tightened paths before calling the sell executor. -/
def withMomCooldown (sys : SysState) (token now : Nat) : SysState :=
  { sys with cooldowns := recordMomentumStopLoss sys.cooldowns token now }

/-- The strategy-conditional cooldown records on the standard stop-loss path
(`recordMomentumStopLoss` for momentum, `recordBreakoutExit` for breakout). -/
def stopLossRecords (sys : SysState) (trade : Trade) (now : Nat) : SysState :=
  let sys2 := if trade.strategy = .momentum then withMomCooldown sys trade.token_address now else sys
  if trade.strategy = .breakout then recordBreakoutExit sys2 trade.token_address now else sys2

/-- The highest-price / unrealized-P&L merge performed at the start of a slow
monitor evaluation: `highest_price` is replaced only when the current price
strictly exceeds `trade.highest_price || trade.entry_price`. -/
def monitorHighestUpdate (trade : Trade) (currentPrice pnlPercent : ℚ) : Trade → Trade :=
  if jsOrQ trade.highest_price trade.entry_price < currentPrice then
    fun t => { t with highest_price := currentPrice, pnl_percent := pnlPercent }
  else
    fun t => { t with pnl_percent := pnlPercent }

/-- `checkTradeExit` in `activeTrades.js`, for one active trade.  `tokenData`
is the DexScreener fetch result (`none` = missing data, position skipped);
`guard` is the market-guard level read through `isRedAlert`/`isOrangeOrAbove`;
a `StoreErr` propagates to the per-trade catch in `monitorActiveTrades`.
Rule order: market-guard RED force-close for momentum, market-guard ORANGE
tightened stop for momentum, trailing stop, standard stop loss, then the
strategy-specific exits. -/
def checkTradeExit (sys : SysState) (trade : Trade) (tokenData : Option TokenData)
    (settings : Settings) (guard : AlertLevel) (sellOk : Bool) (now today : Nat) :
    Except StoreErr StepOut :=
  match tokenData with
  | none => .ok { sys := sys, sell := none }
  | some token =>
    let currentPrice := token.price_usd
    let pnlPercent := pnlPercentOf trade currentPrice
    match updateTrade sys.store trade.id (monitorHighestUpdate trade currentPrice pnlPercent) with
    | .error e => .error e
    | .ok (store1, _) =>
      let sys1 : SysState := { sys with store := store1 }
      if redRule trade guard then
        .ok (doSell sys1 trade token settings .market_guard_red 100 sellOk now today)
      else if orangeRule trade settings guard currentPrice then
        .ok (doSell (withMomCooldown sys1 trade.token_address now) trade token settings
          .market_guard_orange 100 sellOk now today)
      else if trailingRule trade settings currentPrice then
        .ok (doSell sys1 trade token settings .trailing_stop 100 sellOk now today)
      else if stopLossRule trade settings currentPrice then
        .ok (doSell (stopLossRecords sys1 trade now) trade token settings .stop_loss 100
          sellOk now today)
      else
        match trade.strategy with
        | .scalp => .ok (checkScalpExit sys1 trade token pnlPercent settings sellOk now today)
        | .momentum => .ok (checkMomentumExit sys1 trade token settings sellOk now today)
        | .breakout => .ok (checkBreakoutExit sys1 trade token pnlPercent settings sellOk now today)

/-- The minimal token record synthesized by `sellWithMinimalToken` in
`fastStopLoss.js` (fields other than the price are conservative placeholders;
`buy_pressure` is absent in the source object and never read on this path). -/
def minimalToken (currentPrice : ℚ) : TokenData :=
  { price_usd := currentPrice
    liquidity_usd := 50000
    market_cap := 0
    price_change_5m := 0
    buy_pressure := 0 }

/-- The body of `runFastStopLossCheck` in `fastStopLoss.js` for one active
trade, given the batched Jupiter price lookup result for its token
(`none`/price `0` = falsy, trade skipped).  Rules: market-guard RED
force-close for momentum, market-guard ORANGE tightened stop for momentum,
standard stop loss — no trailing stop, no strategy-specific exits, all sells
100%. -/
def fastStopLossCheckTrade (sys : SysState) (trade : Trade) (price : Option ℚ)
    (settings : Settings) (guard : AlertLevel) (sellOk : Bool) (now today : Nat) : StepOut :=
  match price with
  | none => { sys := sys, sell := none }
  | some currentPrice =>
    if currentPrice = 0 then { sys := sys, sell := none }
    else
      let token := minimalToken currentPrice
      if redRule trade guard then
        doSell sys trade token settings .market_guard_red 100 sellOk now today
      else if orangeRule trade settings guard currentPrice then
        doSell (withMomCooldown sys trade.token_address now) trade token settings
          .market_guard_orange 100 sellOk now today
      else if stopLossRule trade settings currentPrice then
        doSell (stopLossRecords sys trade now) trade token settings .stop_loss 100 sellOk now today
      else { sys := sys, sell := none }

/-- The system state after the slow monitor's initial highest-price / P&L
merge (the store produced by its first `updateTrade` call). -/
def monitorUpdated (sys : SysState) (trade : Trade) (currentPrice : ℚ) : SysState :=
  let f := monitorHighestUpdate trade currentPrice (pnlPercentOf trade currentPrice)
  { sys with store := { sys.store with trades := updateFirst sys.store.trades trade.id f } }

-- Observation helpers used by the theorems.

/-- The status of the trade with the given id, if present. -/
def tradeStatus (s : TradeStore) (id : Nat) : Option Status :=
  (findTrade s.trades id).map Trade.status

/-- The `exit_time` of the trade with the given id, if present. -/
def tradeExitTime (s : TradeStore) (id : Nat) : Option (Option Nat) :=
  (findTrade s.trades id).map Trade.exit_time

-- ── Concrete fixtures used by witnesses and counterexamples ──────────────────

/-- An active scalp position: entry price 1, size 1 SOL, 1000 tokens,
stop-loss 20%. -/
def scalpTrade : Trade :=
  { id := 1
    strategy := .scalp
    token_address := 7
    entry_price := 1
    amount_sol := 1
    token_amount := 1000
    stop_loss_percent := 20
    exit_mc_min := none
    highest_price := 1
    partial_exit_executed := false
    status := .active
    entry_time := 0
    exit_time := none
    exit_price := none
    pnl_percent := 0
    pnl_sol := 0 }

/-- An active momentum position with the same numeric parameters. -/
def momTrade : Trade :=
  { scalpTrade with strategy := .momentum }

def baseAgg : AggState :=
  { daily_pnl_sol := 0, daily_reset_date := 0, total_pnl_sol := 0, trade_count := 0 }

def scalpStore : TradeStore := { trades := [scalpTrade], state := baseAgg }

def momStore : TradeStore := { trades := [momTrade], state := baseAgg }

def emptyCooldowns : CooldownState :=
  { stopLossCooldowns := fun _ => none
    consecutiveStopPauseUntil := none
    recentStopLosses := [] }

def scalpSys : SysState :=
  { store := scalpStore, cooldowns := emptyCooldowns, breakoutExits := fun _ => none }

def momSys : SysState :=
  { store := momStore, cooldowns := emptyCooldowns, breakoutExits := fun _ => none }

/-- Settings with scalp exit market cap 800K, trailing stop disabled. -/
def baseSettings : Settings :=
  { stop_loss_percent := 20
    trailing_stop_enabled := false
    trailing_stop_percent := 15
    scalp_exit_mc := 800000
    momentum_exit_mc_min := 250000
    breakout_target_gain_percent := 30 }

/-- Market data at price 0.79: a −21% unrealized P&L against entry 1. -/
def tokStop : TokenData :=
  { price_usd := 79 / 100
    market_cap := 100000
    liquidity_usd := 50000
    price_change_5m := 0
    buy_pressure := 50 }

/-- Market data at price 1.50 (+50% P&L) with market cap 900K, above the
scalp exit market-cap target of 800K. -/
def tokMc : TokenData :=
  { price_usd := 3 / 2
    market_cap := 900000
    liquidity_usd := 50000
    price_change_5m := 0
    buy_pressure := 50 }

/-- Market data at price 0.50 (−50% P&L). -/
def tokHalf : TokenData :=
  { price_usd := 1 / 2
    market_cap := 100000
    liquidity_usd := 50000
    price_change_5m := 0
    buy_pressure := 50 }

/-- A quiescent guard state holding one BTC price sample of 100 recorded 3
hours before the reference time 18000000 ms (= 5h). -/
def guard4h : GuardState :=
  { btcPriceHistory := [{ price := 100, timestamp := 7200000 }]
    btcVolatilityHistory := []
    baselineVolatility := none
    currentAlertLevel := .NONE
    alertTriggeredAt := none
    stableHoursCount := 0 }

/-- A guard state holding one BTC price sample of 100 recorded inside the
30-minute window before the reference time 18000000 ms. -/
def guard30m : GuardState :=
  { guard4h with btcPriceHistory := [{ price := 100, timestamp := 17000000 }] }

/-- `guard30m` currently at YELLOW with 3.95 accumulated stable hours. -/
def guardYellowStable : GuardState :=
  { guard30m with currentAlertLevel := .YELLOW, stableHoursCount := 47 / 12 }

/-- A cooldown state holding one recent stop-loss timestamp 15 minutes before
the reference time 1800000 ms. -/
def cdOneStop : CooldownState :=
  { stopLossCooldowns := fun _ => none
    consecutiveStopPauseUntil := none
    recentStopLosses := [900000] }

/-- A cooldown state with a consecutive-stop pause expiring at 7200000 ms. -/
def cdPaused : CooldownState :=
  { cdOneStop with recentStopLosses := [], consecutiveStopPauseUntil := some 7200000 }

/-- Creation data as passed by a strategy scanner (entry price 2). -/
def momCreate : CreateData :=
  { strategy := .momentum
    token_address := 7
    entry_price := 2
    amount_sol := 1
    token_amount := 500
    stop_loss_percent := 20
    exit_mc_min := some 250000 }

-- ── General lemmas about the store and the monitors ──────────────────────────

/-- Updating the first trade with a given id by an id-preserving merge is
visible through `findTrade`. -/
theorem findTrade_updateFirst {ts : List Trade} {id : Nat} {t0 : Trade} {f : Trade → Trade}
    (hid : ∀ t, (f t).id = t.id) (h : findTrade ts id = some t0) :
    findTrade (updateFirst ts id f) id = some (f t0) := by
  induction ts with
  | nil => simp [findTrade, List.find?] at h
  | cons t rest ih =>
    by_cases ht : t.id = id
    · unfold findTrade at h
      rw [List.find?_cons_of_pos _ (by simpa using ht)] at h
      obtain rfl : t = t0 := by simpa using h
      unfold updateFirst findTrade
      rw [if_pos ht]
      exact List.find?_cons_of_pos _ (by simpa [hid] using ht)
    · unfold findTrade at h
      rw [List.find?_cons_of_neg _ (by simpa using ht)] at h
      unfold updateFirst findTrade
      rw [if_neg ht, List.find?_cons_of_neg _ (by simpa using ht)]
      exact ih h

/-- `updateTrade` on a present id succeeds with the merged trade. -/
theorem updateTrade_ok {s : TradeStore} {id : Nat} {t0 : Trade} (f : Trade → Trade)
    (h : findTrade s.trades id = some t0) :
    updateTrade s id f = .ok ({ s with trades := updateFirst s.trades id f }, f t0) := by
  unfold updateTrade
  rw [h]

/-- `closeTrade` on a present id succeeds, replacing the trade by its closed
version and replacing the aggregate state by the updated counters. -/
theorem closeTrade_ok {s : TradeStore} {id : Nat} {t0 : Trade} (exitPrice : ℚ) (reason : Reason)
    (now today : Nat) (h : findTrade s.trades id = some t0) :
    closeTrade s id exitPrice reason now today =
      .ok ({ trades := updateFirst s.trades id (closeMerge t0 exitPrice reason now)
             state := closeAgg s.state t0 exitPrice today },
           closeMerge t0 exitPrice reason now t0) := by
  simp only [closeTrade, h, updateTrade_ok (closeMerge t0 exitPrice reason now) h]

/-- A failed quote/build/sign/broadcast leaves every resource untouched. -/
theorem executeSell_fail (sys : SysState) (trade : Trade) (token : TokenData)
    (settings : Settings) (reason : Reason) (pct : ℚ) (now today : Nat) :
    executeSell sys trade token settings reason pct false now today = sys := rfl

/-- A successful sell with a non-`partial_target` reason closes the trade. -/
theorem executeSell_close {sys : SysState} {trade : Trade} (token : TokenData)
    (settings : Settings) {reason : Reason} (pct : ℚ) (now today : Nat) {t0 : Trade}
    (h : findTrade sys.store.trades trade.id = some t0) (hr : reason ≠ .partial_target) :
    executeSell sys trade token settings reason pct true now today =
      { sys with store :=
          { trades := updateFirst sys.store.trades trade.id
              (closeMerge t0 token.price_usd reason now)
            state := closeAgg sys.store.state t0 token.price_usd today } } := by
  simp only [executeSell, executeSellStore, reduceIte]
  rw [if_neg hr, closeTrade_ok token.price_usd reason now today h]

/-- A successful sell with reason `partial_target` marks the partial exit and
reduces the held quantity to the residual after `floor(0.8 × amount)`. -/
theorem executeSell_partial_branch {sys : SysState} {trade : Trade} (token : TokenData)
    (settings : Settings) (pct : ℚ) (now today : Nat) {t0 : Trade}
    (h : findTrade sys.store.trades trade.id = some t0) :
    executeSell sys trade token settings .partial_target pct true now today =
      { sys with store :=
          { sys.store with trades := updateFirst sys.store.trades trade.id (partialMerge trade) } }
    := by
  simp only [executeSell, executeSellStore, reduceIte]
  rw [updateTrade_ok _ h]

/-- `executeSell` never touches the cooldown register or the breakout
re-entry map. -/
theorem executeSell_cooldowns (sys : SysState) (trade : Trade) (token : TokenData)
    (settings : Settings) (reason : Reason) (pct : ℚ) (sellOk : Bool) (now today : Nat) :
    (executeSell sys trade token settings reason pct sellOk now today).cooldowns = sys.cooldowns
      ∧ (executeSell sys trade token settings reason pct sellOk now today).breakoutExits
          = sys.breakoutExits :=
  ⟨rfl, rfl⟩

/-- The merges applied to a stored trade by the monitors and the close path
preserve the id. -/
theorem monitorHighestUpdate_id (trade : Trade) (p q : ℚ) (t : Trade) :
    (monitorHighestUpdate trade p q t).id = t.id := by
  unfold monitorHighestUpdate
  split <;> rfl

/-- `closeMerge` preserves the id. -/
theorem closeMerge_id (t0 : Trade) (e : ℚ) (r : Reason) (n : Nat) (t : Trade) :
    (closeMerge t0 e r n t).id = t.id := rfl

/-- Slow monitor, rule 1: with a RED alert and a momentum position the
evaluation sells 100% with reason `market_guard_red` immediately. -/
theorem checkTradeExit_red {sys : SysState} {trade : Trade} (token : TokenData)
    (settings : Settings) {guard : AlertLevel} (sellOk : Bool) (now today : Nat) {t0 : Trade}
    (h : findTrade sys.store.trades trade.id = some t0) (hred : redRule trade guard) :
    checkTradeExit sys trade (some token) settings guard sellOk now today =
      .ok (doSell (monitorUpdated sys trade token.price_usd) trade token settings
        .market_guard_red 100 sellOk now today) := by
  simp only [checkTradeExit, updateTrade_ok _ h]
  rw [if_pos hred]
  rfl

/-- Slow monitor, rule 2: no RED force-close, ORANGE-or-above with momentum
and P&L at or below the halved stop sells 100% with reason
`market_guard_orange` after recording the momentum stop-loss cooldown. -/
theorem checkTradeExit_orange {sys : SysState} {trade : Trade} (token : TokenData)
    (settings : Settings) {guard : AlertLevel} (sellOk : Bool) (now today : Nat) {t0 : Trade}
    (h : findTrade sys.store.trades trade.id = some t0)
    (hnred : ¬redRule trade guard) (ho : orangeRule trade settings guard token.price_usd) :
    checkTradeExit sys trade (some token) settings guard sellOk now today =
      .ok (doSell (withMomCooldown (monitorUpdated sys trade token.price_usd)
          trade.token_address now) trade token settings .market_guard_orange 100
        sellOk now today) := by
  simp only [checkTradeExit, updateTrade_ok _ h]
  rw [if_neg hnred, if_pos ho]
  rfl

/-- Slow monitor, rule 4: when no earlier rule fires and the P&L is at or
below minus the effective stop-loss percent, the evaluation records the
strategy-conditional cooldowns and sells 100% with reason `stop_loss`. -/
theorem checkTradeExit_stopLoss {sys : SysState} {trade : Trade} (token : TokenData)
    (settings : Settings) {guard : AlertLevel} (sellOk : Bool) (now today : Nat) {t0 : Trade}
    (h : findTrade sys.store.trades trade.id = some t0)
    (hnred : ¬redRule trade guard) (hno : ¬orangeRule trade settings guard token.price_usd)
    (hnt : ¬trailingRule trade settings token.price_usd)
    (hs : stopLossRule trade settings token.price_usd) :
    checkTradeExit sys trade (some token) settings guard sellOk now today =
      .ok (doSell (stopLossRecords (monitorUpdated sys trade token.price_usd) trade now)
        trade token settings .stop_loss 100 sellOk now today) := by
  simp only [checkTradeExit, updateTrade_ok _ h]
  rw [if_neg hnred, if_neg hno, if_neg hnt, if_pos hs]
  rfl

/-- Fast monitor, rule 1. -/
theorem fastCheck_red (sys : SysState) (trade : Trade) {currentPrice : ℚ}
    (settings : Settings) {guard : AlertLevel} (sellOk : Bool) (now today : Nat)
    (hp : currentPrice ≠ 0) (hred : redRule trade guard) :
    fastStopLossCheckTrade sys trade (some currentPrice) settings guard sellOk now today =
      doSell sys trade (minimalToken currentPrice) settings .market_guard_red 100
        sellOk now today := by
  simp only [fastStopLossCheckTrade]
  rw [if_neg hp, if_pos hred]

/-- Fast monitor, rule 2. -/
theorem fastCheck_orange (sys : SysState) (trade : Trade) {currentPrice : ℚ}
    (settings : Settings) {guard : AlertLevel} (sellOk : Bool) (now today : Nat)
    (hp : currentPrice ≠ 0) (hnred : ¬redRule trade guard)
    (ho : orangeRule trade settings guard currentPrice) :
    fastStopLossCheckTrade sys trade (some currentPrice) settings guard sellOk now today =
      doSell (withMomCooldown sys trade.token_address now) trade (minimalToken currentPrice)
        settings .market_guard_orange 100 sellOk now today := by
  simp only [fastStopLossCheckTrade]
  rw [if_neg hp, if_neg hnred, if_pos ho]

/-- Fast monitor, rule 3 (standard stop loss). -/
theorem fastCheck_stopLoss (sys : SysState) (trade : Trade) {currentPrice : ℚ}
    (settings : Settings) {guard : AlertLevel} (sellOk : Bool) (now today : Nat)
    (hp : currentPrice ≠ 0) (hnred : ¬redRule trade guard)
    (hno : ¬orangeRule trade settings guard currentPrice)
    (hs : stopLossRule trade settings currentPrice) :
    fastStopLossCheckTrade sys trade (some currentPrice) settings guard sellOk now today =
      doSell (stopLossRecords sys trade now) trade (minimalToken currentPrice) settings
        .stop_loss 100 sellOk now today := by
  simp only [fastStopLossCheckTrade]
  rw [if_neg hp, if_neg hnred, if_neg hno, if_pos hs]

/-- The monitor's highest-price merge does not change the status, exit time,
held quantity or partial-exit flag. -/
theorem monitorHighestUpdate_fields (trade : Trade) (p q : ℚ) (t : Trade) :
    (monitorHighestUpdate trade p q t).status = t.status ∧
    (monitorHighestUpdate trade p q t).exit_time = t.exit_time ∧
    (monitorHighestUpdate trade p q t).token_amount = t.token_amount ∧
    (monitorHighestUpdate trade p q t).partial_exit_executed = t.partial_exit_executed := by
  unfold monitorHighestUpdate
  split <;> exact ⟨rfl, rfl, rfl, rfl⟩

/-- Lookup through the monitor's initial merge. -/
theorem findTrade_monitorUpdated {sys : SysState} {trade : Trade} (p : ℚ) {t0 : Trade}
    (h : findTrade sys.store.trades trade.id = some t0) :
    findTrade (monitorUpdated sys trade p).store.trades trade.id
      = some (monitorHighestUpdate trade p (pnlPercentOf trade p) t0) :=
  findTrade_updateFirst (monitorHighestUpdate_id trade p _) h

/-- `stopLossRecords` touches only the cooldown register and the breakout
re-entry map, never the store. -/
theorem stopLossRecords_store (sys : SysState) (trade : Trade) (now : Nat) :
    (stopLossRecords sys trade now).store = sys.store := by
  simp only [stopLossRecords, withMomCooldown, recordBreakoutExit]
  split <;> split <;> rfl

/-- On the stop-loss path of a momentum position, the cooldown register is
replaced by the momentum stop-loss record. -/
theorem stopLossRecords_cooldowns_momentum {trade : Trade} (sys : SysState) (now : Nat)
    (hm : trade.strategy = .momentum) :
    (stopLossRecords sys trade now).cooldowns
      = recordMomentumStopLoss sys.cooldowns trade.token_address now := by
  simp only [stopLossRecords, withMomCooldown, recordBreakoutExit]
  rw [if_pos hm, if_neg (by simp [hm])]

/-- On the stop-loss path of a non-momentum position, the cooldown register is
untouched. -/
theorem stopLossRecords_cooldowns_other {trade : Trade} (sys : SysState) (now : Nat)
    (hm : trade.strategy ≠ .momentum) :
    (stopLossRecords sys trade now).cooldowns = sys.cooldowns := by
  simp only [stopLossRecords, withMomCooldown, recordBreakoutExit]
  rw [if_neg hm]
  split <;> rfl

/-- The consecutive-stop bookkeeping never changes the per-token cooldown
timestamps. -/
theorem recordStopLossForConsecutiveCheck_stopLossCooldowns (st : CooldownState) (now : Nat) :
    (recordStopLossForConsecutiveCheck st now).stopLossCooldowns = st.stopLossCooldowns := by
  simp only [recordStopLossForConsecutiveCheck, setConsecutiveStopPause]
  split <;> rfl

/-- A momentum stop-loss record stamps `now` for the token. -/
theorem recordMomentumStopLoss_lookup (cs : CooldownState) (token now : Nat) :
    (recordMomentumStopLoss cs token now).stopLossCooldowns token = some now := by
  unfold recordMomentumStopLoss
  rw [recordStopLossForConsecutiveCheck_stopLossCooldowns]
  simp [setStopLossCooldown]

/-- A sell attempt whose external interaction failed returns the incoming
resources unchanged (the sell call is still recorded in the trace). -/
theorem doSell_fail_sys (sys : SysState) (trade : Trade) (token : TokenData)
    (settings : Settings) (reason : Reason) (pct : ℚ) (now today : Nat) :
    (doSell sys trade token settings reason pct false now today).sys = sys := rfl

/-- The ledger fields of the evaluated trade visible after the monitor's
initial merge: status, exit time, held quantity and partial-exit flag are
those of the stored trade. -/
theorem monitorUpdated_observables {sys : SysState} {trade : Trade} (p : ℚ) {t0 : Trade}
    (h : findTrade sys.store.trades trade.id = some t0) :
    tradeStatus (monitorUpdated sys trade p).store trade.id = some t0.status ∧
    tradeExitTime (monitorUpdated sys trade p).store trade.id = some t0.exit_time ∧
    (findTrade (monitorUpdated sys trade p).store.trades trade.id).map Trade.token_amount
      = some t0.token_amount ∧
    (findTrade (monitorUpdated sys trade p).store.trades trade.id).map Trade.partial_exit_executed
      = some t0.partial_exit_executed := by
  have hf := findTrade_monitorUpdated p h
  obtain ⟨h1, h2, h3, h4⟩ := monitorHighestUpdate_fields trade p (pnlPercentOf trade p) t0
  unfold tradeStatus tradeExitTime
  rw [hf]
  simp [h1, h2, h3, h4]

/-- Observables of a successful closing sell (any non-partial reason). -/
theorem doSell_close_observables {sys : SysState} {trade : Trade} (token : TokenData)
    (settings : Settings) {reason : Reason} (pct : ℚ) (now today : Nat) {t0 : Trade}
    (h : findTrade sys.store.trades trade.id = some t0) (hr : reason ≠ .partial_target) :
    (doSell sys trade token settings reason pct true now today).sell
        = some { reason := reason, sellPercent := pct } ∧
    tradeStatus (doSell sys trade token settings reason pct true now today).sys.store trade.id
        = some (if reason = .stop_loss then .stopped else .completed) ∧
    tradeExitTime (doSell sys trade token settings reason pct true now today).sys.store trade.id
        = some (some now) ∧
    (doSell sys trade token settings reason pct true now today).sys.cooldowns
        = sys.cooldowns := by
  refine ⟨rfl, ?_, ?_, rfl⟩
  all_goals
    simp only [doSell, executeSell_close token settings pct now today h hr, tradeStatus,
      tradeExitTime]
  all_goals
    rw [findTrade_updateFirst (closeMerge_id t0 token.price_usd reason now) h]
  all_goals rfl

-- ── C1: close on unknown / already-closed ids ────────────────────────────────

/-- C1 (counterexample): `closeTrade` performs no status check, so the claims
of an `AlreadyClosed` failure and of exactly one realized-P&L update are false.
Closing trade 1 of `scalpStore` at price 2 succeeds and a second close of the
same id succeeds again — after the first close the status is already
`completed`, yet the second call returns ok and the aggregate counters are
updated a second time (`trade_count = 2`, `total_pnl_sol = 2`). -/
theorem C1_counterexample :
    ((closeTrade scalpStore 1 2 .target 5 0).toOption.bind fun p =>
        (closeTrade p.1 1 2 .target 6 0).toOption.map fun q =>
          (tradeStatus p.1 1, (closeTrade p.1 1 2 .target 6 0).isOk,
            q.1.state.trade_count, q.1.state.total_pnl_sol))
      = some (some .completed, true, 2, 2) := by
  simp only [closeTrade, closeMerge, closeAgg, closePnlSol, closePnlPercent, updateTrade,
    findTrade, List.find?, scalpStore, scalpTrade, baseAgg, updateFirst, resetDailyIfNeeded,
    Except.toOption, tradeStatus, Except.isOk]
  norm_num
  simp only [reduceIte, reduceCtorEq]
  norm_num [updateFirst, List.find?, Except.toBool]

/-- C1 (amended): `closeTrade` fails with `NotFound` exactly when the id is
unknown; whenever a trade with the id exists — whatever its status, including
an already-closed one — the call succeeds, merges the exit fields (status
`stopped` for reason `stop_loss`, else `completed`) and performs a further
aggregate update (`trade_count` is incremented again), so a double close
performs two updates and never observes an `AlreadyClosed` error. -/
theorem C1_closeTrade_no_status_check (s : TradeStore) (id : Nat) (exitPrice : ℚ)
    (reason : Reason) (now today : Nat) :
    (findTrade s.trades id = none →
      closeTrade s id exitPrice reason now today = .error (.notFound id)) ∧
    (∀ t0, findTrade s.trades id = some t0 →
      (closeTrade s id exitPrice reason now today).toOption.map
          (fun p => (p.1.state.trade_count, p.2.status, p.2.exit_time))
        = some ((resetDailyIfNeeded s.state today).trade_count + 1,
            if reason = .stop_loss then Status.stopped else .completed, some now)) := by
  constructor
  · intro h
    simp only [closeTrade, h]
  · intro t0 h
    simp only [closeTrade, updateTrade, h, Except.toOption, Option.map_some']
    simp [closeAgg, closeMerge]

/-- C1 (witness): the amended theorem applied to the concrete one-trade store,
with the `findTrade` hypothesis discharged by evaluation. -/
theorem C1_witness :
    (closeTrade scalpStore 1 2 .target 5 0).toOption.map
        (fun p => (p.1.state.trade_count, p.2.status, p.2.exit_time))
      = some ((resetDailyIfNeeded scalpStore.state 0).trade_count + 1,
          if Reason.target = .stop_loss then Status.stopped else .completed, some 5) :=
  (C1_closeTrade_no_status_check scalpStore 1 2 .target 5 0).2 scalpTrade (by decide)

-- ── C2: what decides the sell executor's ledger mutation ─────────────────────

/-- C2 (counterexample): the ledger mutation after a successful sell is not
decided by the sell percentage.  A scalp position (entry 1, not yet partially
exited) evaluated at price 1.50 with market cap 900K ≥ the 800K target issues
a market-cap-target sell of 80%, yet the position is closed: status becomes
`completed`, the held quantity is not reduced and no partial-exit flag is set
— contradicting the claim that a successful sell with percentage 80 leaves
the position active with reduced quantity. -/
theorem C2_counterexample :
    (checkTradeExit scalpSys scalpTrade (some tokMc) baseSettings .NONE true 1000 0).toOption.map
        (fun o => (o.sell, tradeStatus o.sys.store 1,
          (findTrade o.sys.store.trades 1).map Trade.token_amount,
          (findTrade o.sys.store.trades 1).map Trade.partial_exit_executed))
      = some (some { reason := .mc_target, sellPercent := 80 }, some .completed,
          some 1000, some false) := by
  simp only [checkTradeExit, checkScalpExit, doSell, executeSell, executeSellStore, partialMerge,
    closeTrade, closeMerge, closeAgg, closePnlSol, closePnlPercent, updateTrade, updateFirst,
    findTrade, resetDailyIfNeeded, monitorHighestUpdate, pnlPercentOf, effStopLoss, jsOrQ,
    jsTruthyQ, redRule, orangeRule, trailingRule, stopLossRule, isRedAlert, isOrangeOrAbove,
    tradeStatus, Except.toOption, List.find?, scalpSys, scalpStore, scalpTrade, baseAgg,
    baseSettings, emptyCooldowns, tokMc]
  norm_num
  simp only [reduceIte, reduceCtorEq]
  norm_num [updateFirst, List.find?, closeMerge, partialMerge]
  decide

/-- C2 (amended): the ledger mutation of a successful sell is decided by the
reason code, not the percentage: reason `partial_target` marks the position
partially exited and reduces the held quantity (status untouched, aggregate
state untouched); every other reason — whatever the percentage, including a
scalp market-cap-target sell of 80% — closes the position (status
`stopped`/`completed`, exit time stamped, aggregate trade count bumped). -/
theorem C2_executeSell_reason_decides (sys : SysState) (trade : Trade) (token : TokenData)
    (settings : Settings) (reason : Reason) (sellPercent : ℚ) (now today : Nat) (t0 : Trade)
    (h : findTrade sys.store.trades trade.id = some t0) :
    (reason = .partial_target →
      findTrade (executeSell sys trade token settings reason sellPercent true now today).store.trades
          trade.id = some (partialMerge trade t0) ∧
      (executeSell sys trade token settings reason sellPercent true now today).store.state
        = sys.store.state) ∧
    (reason ≠ .partial_target →
      tradeStatus (executeSell sys trade token settings reason sellPercent true now today).store
          trade.id = some (if reason = .stop_loss then .stopped else .completed) ∧
      tradeExitTime (executeSell sys trade token settings reason sellPercent true now today).store
          trade.id = some (some now) ∧
      (executeSell sys trade token settings reason sellPercent true now today).store.state.trade_count
        = (resetDailyIfNeeded sys.store.state today).trade_count + 1) := by
  constructor
  · rintro rfl
    rw [executeSell_partial_branch token settings sellPercent now today h]
    exact ⟨findTrade_updateFirst (fun t => rfl) h, rfl⟩
  · intro hr
    rw [executeSell_close token settings sellPercent now today h hr]
    refine ⟨?_, ?_, rfl⟩
    · unfold tradeStatus
      rw [findTrade_updateFirst (closeMerge_id t0 token.price_usd reason now) h]
      rfl
    · unfold tradeExitTime
      rw [findTrade_updateFirst (closeMerge_id t0 token.price_usd reason now) h]
      rfl

/-- C2 (witness): the amended theorem at the concrete scalp store, closing
with reason `mc_target` (the percentage-80 call site). -/
theorem C2_witness :
    tradeStatus (executeSell scalpSys scalpTrade tokMc baseSettings .mc_target 80 true 1000 0).store
        1 = some (if Reason.mc_target = .stop_loss then Status.stopped else .completed) ∧
      tradeExitTime (executeSell scalpSys scalpTrade tokMc baseSettings .mc_target 80 true 1000 0).store
        1 = some (some 1000) ∧
      (executeSell scalpSys scalpTrade tokMc baseSettings .mc_target 80 true 1000 0).store.state.trade_count
        = (resetDailyIfNeeded scalpSys.store.state 0).trade_count + 1 :=
  (C2_executeSell_reason_decides scalpSys scalpTrade tokMc baseSettings .mc_target 80 1000 0
    scalpTrade (by decide)).2 (by decide)

-- ── C3: slow-monitor stop loss and cooldown recording ────────────────────────

/-- C3 (counterexample): the stop-loss cooldown is not recorded for every
strategy.  A scalp position at entry 1 evaluated at price 0.79 (−21% ≤ −20%)
is sold 100% with reason `stop_loss` and closed with status `stopped`, but
the cooldown register still holds no timestamp for its token and no
consecutive-stop entry — contradicting "regardless of strategy". -/
theorem C3_counterexample :
    (checkTradeExit scalpSys scalpTrade (some tokStop) baseSettings .NONE true 1000 0).toOption.map
        (fun o => (o.sell, tradeStatus o.sys.store 1, o.sys.cooldowns.stopLossCooldowns 7,
          o.sys.cooldowns.recentStopLosses))
      = some (some { reason := .stop_loss, sellPercent := 100 }, some .stopped, none, []) := by
  simp only [checkTradeExit, doSell, executeSell, executeSellStore, partialMerge, closeTrade,
    closeMerge, closeAgg, closePnlSol, closePnlPercent, updateTrade, updateFirst, findTrade,
    resetDailyIfNeeded, monitorHighestUpdate, pnlPercentOf, effStopLoss, jsOrQ, jsTruthyQ,
    redRule, orangeRule, trailingRule, stopLossRule, isRedAlert, isOrangeOrAbove, withMomCooldown,
    stopLossRecords, recordMomentumStopLoss, recordBreakoutExit, tradeStatus, Except.toOption,
    List.find?, scalpSys, scalpStore, scalpTrade, baseAgg, baseSettings, emptyCooldowns, tokStop]
  norm_num
  simp only [reduceIte, reduceCtorEq]
  norm_num [updateFirst, List.find?, closeMerge]

/-- C3 (amended): whenever the slow monitor evaluates an active position whose
unrealized P&L is at or below minus its stop-loss percent and no earlier rule
fires, it sells 100% with reason `stop_loss` and the successful close sets the
status to `stopped`; but the Cooldown Register records the stop-loss timestamp
`now` only when the position's strategy is momentum — for any other strategy
the cooldown register is left untouched (breakout only stamps its separate
in-memory re-entry map, scalp records nothing). -/
theorem C3_slow_stop_loss_cooldown_momentum_only (sys : SysState) (trade : Trade)
    (token : TokenData) (settings : Settings) (guard : AlertLevel) (now today : Nat) (t0 : Trade)
    (h : findTrade sys.store.trades trade.id = some t0)
    (hnred : ¬redRule trade guard) (hno : ¬orangeRule trade settings guard token.price_usd)
    (hnt : ¬trailingRule trade settings token.price_usd)
    (hs : stopLossRule trade settings token.price_usd) :
    ((checkTradeExit sys trade (some token) settings guard true now today).toOption.map
        (fun o => (o.sell, tradeStatus o.sys.store trade.id))
      = some (some { reason := .stop_loss, sellPercent := 100 }, some .stopped)) ∧
    (trade.strategy = .momentum →
      (checkTradeExit sys trade (some token) settings guard true now today).toOption.map
          (fun o => o.sys.cooldowns.stopLossCooldowns trade.token_address)
        = some (some now)) ∧
    (trade.strategy ≠ .momentum →
      (checkTradeExit sys trade (some token) settings guard true now today).toOption.map
          (fun o => o.sys.cooldowns) = some sys.cooldowns) := by
  have h3 : findTrade
      (stopLossRecords (monitorUpdated sys trade token.price_usd) trade now).store.trades trade.id
      = some (monitorHighestUpdate trade token.price_usd
          (pnlPercentOf trade token.price_usd) t0) := by
    rw [stopLossRecords_store]
    exact findTrade_monitorUpdated _ h
  have hr : (Reason.stop_loss) ≠ .partial_target := by decide
  obtain ⟨hsell, hstat, hext, hcool⟩ := doSell_close_observables token settings 100 now today h3 hr
  rw [checkTradeExit_stopLoss token settings true now today h hnred hno hnt hs]
  refine ⟨?_, ?_, ?_⟩
  · simp only [Except.toOption, Option.map_some']
    rw [hsell, hstat]
    rfl
  · intro hm
    simp only [Except.toOption, Option.map_some']
    rw [hcool, stopLossRecords_cooldowns_momentum _ now hm, recordMomentumStopLoss_lookup]
  · intro hm
    simp only [Except.toOption, Option.map_some']
    rw [hcool, stopLossRecords_cooldowns_other _ now hm]
    rfl

/-- C3 (witness): the amended theorem at a concrete momentum position hitting
its stop loss at price 0.79, with the cooldown recorded. -/
theorem C3_witness :
    ((checkTradeExit momSys momTrade (some tokStop) baseSettings .NONE true 1000 0).toOption.map
        (fun o => (o.sell, tradeStatus o.sys.store 1))
      = some (some { reason := .stop_loss, sellPercent := 100 }, some .stopped)) ∧
    (checkTradeExit momSys momTrade (some tokStop) baseSettings .NONE true 1000 0).toOption.map
        (fun o => o.sys.cooldowns.stopLossCooldowns 7) = some (some 1000) := by
  obtain ⟨h1, h2, _⟩ := C3_slow_stop_loss_cooldown_momentum_only momSys momTrade tokStop
    baseSettings .NONE 1000 0 momTrade (by decide) (by decide) (by decide) (by decide)
    (by norm_num [stopLossRule, pnlPercentOf, effStopLoss, jsOrQ, momTrade, scalpTrade,
      baseSettings, tokStop])
  exact ⟨h1, h2 rfl⟩

-- ── C4: RED force-close path ─────────────────────────────────────────────────

/-- C4 (confirmed): with the market guard RED and a momentum position, both
monitors issue a 100% sell with reason `market_guard_red` whatever the market
data, settings and P&L sign (the conclusion holds for every `token`/`price`),
and neither touches the cooldown register on this path. -/
theorem C4_red_force_close_no_cooldown (sys : SysState) (trade : Trade) (token : TokenData)
    (price : ℚ) (settings : Settings) (sellOk : Bool) (now today : Nat) (t0 : Trade)
    (hm : trade.strategy = .momentum)
    (h : findTrade sys.store.trades trade.id = some t0)
    (hp : price ≠ 0) :
    ((checkTradeExit sys trade (some token) settings .RED sellOk now today).toOption.map
        (fun o => (o.sell, o.sys.cooldowns))
      = some (some { reason := .market_guard_red, sellPercent := 100 }, sys.cooldowns)) ∧
    ((fastStopLossCheckTrade sys trade (some price) settings .RED sellOk now today).sell
        = some { reason := .market_guard_red, sellPercent := 100 }) ∧
    ((fastStopLossCheckTrade sys trade (some price) settings .RED sellOk now today).sys.cooldowns
        = sys.cooldowns) := by
  have hred : redRule trade .RED := ⟨by decide, hm⟩
  refine ⟨?_, ?_, ?_⟩
  · rw [checkTradeExit_red token settings sellOk now today h hred]
    rfl
  · rw [fastCheck_red sys trade settings sellOk now today hp hred]
    rfl
  · rw [fastCheck_red sys trade settings sellOk now today hp hred]
    rfl

/-- C4 (witness): the theorem at a concrete momentum position in profit
(price 1.50, +50%), so the force-close fires regardless of the P&L sign. -/
theorem C4_witness :
    ((checkTradeExit momSys momTrade (some tokMc) baseSettings .RED true 1000 0).toOption.map
        (fun o => (o.sell, o.sys.cooldowns))
      = some (some { reason := .market_guard_red, sellPercent := 100 }, momSys.cooldowns)) ∧
    ((fastStopLossCheckTrade momSys momTrade (some (3 / 2)) baseSettings .RED true 1000 0).sell
        = some { reason := .market_guard_red, sellPercent := 100 }) ∧
    ((fastStopLossCheckTrade momSys momTrade (some (3 / 2)) baseSettings .RED true 1000 0).sys.cooldowns
        = momSys.cooldowns) :=
  C4_red_force_close_no_cooldown momSys momTrade tokMc (3 / 2) baseSettings true 1000 0 momTrade
    rfl (by decide) (by norm_num)

-- ── C5: ORANGE tightened stop ────────────────────────────────────────────────

/-- C5 (counterexample): with the guard at RED — a level the claim includes —
a momentum position at −50% (well below the halved stop of 10%) is closed by
rule 1 with reason `market_guard_red` and no cooldown is recorded, not with
reason `market_guard_orange` plus a cooldown as the claim states for
"ORANGE or RED". -/
theorem C5_counterexample :
    (pnlPercentOf momTrade tokHalf.price_usd
        ≤ -(effStopLoss momTrade baseSettings * (1 / 2))) ∧
    ((checkTradeExit momSys momTrade (some tokHalf) baseSettings .RED true 1000 0).toOption.map
        (fun o => (o.sell, o.sys.cooldowns.stopLossCooldowns 7))
      = some (some { reason := .market_guard_red, sellPercent := 100 }, none)) ∧
    ((fastStopLossCheckTrade momSys momTrade (some (1 / 2)) baseSettings .RED true 1000 0).sell
        = some { reason := .market_guard_red, sellPercent := 100 }) := by
  refine ⟨?_, ?_, ?_⟩
  · norm_num [pnlPercentOf, effStopLoss, jsOrQ, momTrade, scalpTrade, baseSettings, tokHalf]
  · rw [checkTradeExit_red tokHalf baseSettings true 1000 0
      (show findTrade momSys.store.trades momTrade.id = some momTrade by decide)
      ⟨by decide, rfl⟩]
    rfl
  · rw [fastCheck_red momSys momTrade baseSettings true 1000 0 (by norm_num) ⟨by decide, rfl⟩]
    rfl

/-- C5 (amended): the tightened-stop rule effectively fires only at ORANGE
(at RED the force-close rule precedes it).  At ORANGE, for a momentum position
with P&L at or below minus half the effective stop-loss percent, both
monitors sell 100% with reason `market_guard_orange` and record the stop-loss
cooldown; above that threshold the rule does not fire and the evaluation is
identical to the one with no alert at all. -/
theorem C5_orange_tightened (sys : SysState) (trade : Trade) (token : TokenData) (price : ℚ)
    (settings : Settings) (sellOk : Bool) (now today : Nat) (t0 : Trade)
    (hm : trade.strategy = .momentum)
    (h : findTrade sys.store.trades trade.id = some t0)
    (hp : price ≠ 0) :
    (pnlPercentOf trade token.price_usd ≤ -(effStopLoss trade settings * (1 / 2)) →
      (checkTradeExit sys trade (some token) settings .ORANGE sellOk now today).toOption.map
          (fun o => (o.sell, o.sys.cooldowns.stopLossCooldowns trade.token_address))
        = some (some { reason := .market_guard_orange, sellPercent := 100 }, some now)) ∧
    (pnlPercentOf trade price ≤ -(effStopLoss trade settings * (1 / 2)) →
      (fastStopLossCheckTrade sys trade (some price) settings .ORANGE sellOk now today).sell
          = some { reason := .market_guard_orange, sellPercent := 100 } ∧
      (fastStopLossCheckTrade sys trade (some price) settings .ORANGE sellOk now
            today).sys.cooldowns.stopLossCooldowns trade.token_address = some now) ∧
    (-(effStopLoss trade settings * (1 / 2)) < pnlPercentOf trade token.price_usd →
      checkTradeExit sys trade (some token) settings .ORANGE sellOk now today
        = checkTradeExit sys trade (some token) settings .NONE sellOk now today) ∧
    (-(effStopLoss trade settings * (1 / 2)) < pnlPercentOf trade price →
      fastStopLossCheckTrade sys trade (some price) settings .ORANGE sellOk now today
        = fastStopLossCheckTrade sys trade (some price) settings .NONE sellOk now today) := by
  have hnredO : ¬redRule trade .ORANGE := by simp [redRule, isRedAlert]
  have hnredN : ¬redRule trade .NONE := by simp [redRule, isRedAlert]
  refine ⟨?_, ?_, ?_, ?_⟩
  · intro hpnl
    rw [checkTradeExit_orange token settings sellOk now today h hnredO ⟨rfl, hm, hpnl⟩]
    simp only [Except.toOption, Option.map_some', doSell, executeSell, withMomCooldown,
      monitorUpdated]
    rw [recordMomentumStopLoss_lookup]
  · intro hpnl
    rw [fastCheck_orange sys trade settings sellOk now today hp hnredO ⟨rfl, hm, hpnl⟩]
    refine ⟨rfl, ?_⟩
    simp only [doSell, executeSell, withMomCooldown]
    rw [recordMomentumStopLoss_lookup]
  · intro hgt
    have hnoO : ¬orangeRule trade settings .ORANGE token.price_usd := by
      intro ho
      exact absurd ho.2.2 (not_le.mpr hgt)
    have hnoN : ¬orangeRule trade settings .NONE token.price_usd := by
      simp [orangeRule, isOrangeOrAbove]
    simp only [checkTradeExit, updateTrade_ok _ h]
    rw [if_neg hnredO, if_neg hnoO, if_neg hnredN, if_neg hnoN]
  · intro hgt
    have hnoO : ¬orangeRule trade settings .ORANGE price := by
      intro ho
      exact absurd ho.2.2 (not_le.mpr hgt)
    have hnoN : ¬orangeRule trade settings .NONE price := by
      simp [orangeRule, isOrangeOrAbove]
    simp only [fastStopLossCheckTrade, if_neg hp]
    rw [if_neg hnredO, if_neg hnoO, if_neg hnredN, if_neg hnoN]

/-- C5 (witness): the amended theorem at a concrete momentum position at −50%
with the guard at ORANGE: the sell reason is `market_guard_orange` for both
monitors and the cooldown is stamped. -/
theorem C5_witness :
    ((checkTradeExit momSys momTrade (some tokHalf) baseSettings .ORANGE true 1000 0).toOption.map
        (fun o => (o.sell, o.sys.cooldowns.stopLossCooldowns 7))
      = some (some { reason := .market_guard_orange, sellPercent := 100 }, some 1000)) ∧
    ((fastStopLossCheckTrade momSys momTrade (some (1 / 2)) baseSettings .ORANGE true 1000 0).sell
        = some { reason := .market_guard_orange, sellPercent := 100 } ∧
      (fastStopLossCheckTrade momSys momTrade (some (1 / 2)) baseSettings .ORANGE true 1000
          0).sys.cooldowns.stopLossCooldowns 7 = some 1000) := by
  obtain ⟨h1, h2, _, _⟩ := C5_orange_tightened momSys momTrade tokHalf (1 / 2) baseSettings true
    1000 0 momTrade rfl (by decide) (by norm_num)
  refine ⟨h1 ?_, h2 ?_⟩ <;>
    norm_num [pnlPercentOf, effStopLoss, jsOrQ, momTrade, scalpTrade, baseSettings, tokHalf]

-- ── C6 / C7: market guard thresholds and stability ───────────────────────────

/-- `setAlert` always leaves the state at the requested level. -/
theorem setAlert_level (st : GuardState) (level : AlertLevel) (now : Nat) :
    (setAlert st level now).currentAlertLevel = level := by
  unfold setAlert
  split
  · next h => exact h.symm
  · split
    · next h => exact h.symm
    · rfl

/-- The stability check can only keep the level or clear it to `NONE`. -/
theorem checkIfStable_level_cases (st : GuardState) (d1 d30 : ℚ) (liq now : Nat) :
    (checkIfStable st d1 d30 liq now).currentAlertLevel = st.currentAlertLevel ∨
    (checkIfStable st d1 d30 liq now).currentAlertLevel = .NONE := by
  simp only [checkIfStable]
  split
  · exact .inl rfl
  · split
    · split
      · exact .inr (setAlert_level _ _ _)
      · exact .inl rfl
    · exact .inl rfl

/-- C6 (counterexample): with a single BTC sample of 100 three hours old and a
new price of 96, the 4-hour drop is exactly 4% — it does not exceed 4% — yet
the liquidation proxy reports 200M (elevated) and the cycle transitions
NONE → ORANGE.  The claim's "exactly when the 4-hour drop exceeds 4%" is
false at this input. -/
theorem C6_counterexample :
    guardDrop guard4h 96 18000000 (4 * 60 * 60 * 1000) = 4 ∧
    ¬(4 < guardDrop guard4h 96 18000000 (4 * 60 * 60 * 1000)) ∧
    guardLiq guard4h 96 18000000 = 200000000 ∧
    (runMarketGuardCheck guard4h (some 96) 18000000).currentAlertLevel = .ORANGE := by
  have hd : guardDrop guard4h 96 18000000 (4 * 60 * 60 * 1000) = 4 := by
    simp only [guardDrop, guardRecord, recordBtcPrice, recordBtcVolatility, getBtcDropOverWindow,
      guard4h, List.dropWhile, List.filter]
    norm_num
  have hl : guardLiq guard4h 96 18000000 = 200000000 := by
    have hd2 : getBtcDropOverWindow (guardRecord guard4h 96 18000000).btcPriceHistory 18000000
        (4 * 60 * 60 * 1000) = 4 := hd
    simp only [guardLiq, fetchHourlyLiquidations]
    rw [if_pos (by rw [hd2]; norm_num [ORANGE_BTC_DROP_4H_PCT])]
  refine ⟨hd, by rw [hd]; norm_num, hl, ?_⟩
  simp only [runMarketGuardCheck]
  rw [if_neg ?hnred, if_pos (by rw [hl]; decide), setAlert_level]
  case hnred =>
    simp only [guardRedCond, guardDrop, guardRecord, recordBtcPrice, recordBtcVolatility,
      getBtcDropOverWindow, baselineTruthy, guard4h, List.dropWhile, List.filter,
      RED_BTC_DROP_30M_PCT, RED_VOLATILITY_MULTIPLIER]
    norm_num

/-- C6 (amended): in every check cycle that obtains a price, the thresholds
are evaluated RED first (30-minute drop ≥ 5% or volatility multiplier ≥ 10×
with a truthy baseline), then ORANGE — which fires exactly when the 4-hour
drop is at least (≥) 4%, the liquidation proxy's threshold — then YELLOW
(1-hour drop ≥ 3%), transitioning on the first match; when none matches, no
threshold transition occurs and only the stability check may move the level
(to `NONE`). -/
theorem C6_guard_priority (st : GuardState) (price : ℚ) (now : Nat) :
    (guardRedCond st price now →
      (runMarketGuardCheck st (some price) now).currentAlertLevel = .RED) ∧
    (¬guardRedCond st price now →
      ORANGE_BTC_DROP_4H_PCT ≤ guardDrop st price now (4 * 60 * 60 * 1000) →
      (runMarketGuardCheck st (some price) now).currentAlertLevel = .ORANGE) ∧
    (¬guardRedCond st price now →
      guardDrop st price now (4 * 60 * 60 * 1000) < ORANGE_BTC_DROP_4H_PCT →
      YELLOW_BTC_DROP_1H_PCT ≤ guardDrop st price now (60 * 60 * 1000) →
      (runMarketGuardCheck st (some price) now).currentAlertLevel = .YELLOW) ∧
    (¬guardRedCond st price now →
      guardDrop st price now (4 * 60 * 60 * 1000) < ORANGE_BTC_DROP_4H_PCT →
      guardDrop st price now (60 * 60 * 1000) < YELLOW_BTC_DROP_1H_PCT →
      (runMarketGuardCheck st (some price) now).currentAlertLevel = st.currentAlertLevel ∨
      (runMarketGuardCheck st (some price) now).currentAlertLevel = .NONE) := by
  have hliq_hi : ORANGE_BTC_DROP_4H_PCT ≤ guardDrop st price now (4 * 60 * 60 * 1000) →
      guardLiq st price now = 200000000 := by
    intro h4
    have h4g : ORANGE_BTC_DROP_4H_PCT ≤ getBtcDropOverWindow
        (guardRecord st price now).btcPriceHistory now (4 * 60 * 60 * 1000) := h4
    simp only [guardLiq, fetchHourlyLiquidations]
    rw [if_pos h4g]
  have hliq_lo : guardDrop st price now (4 * 60 * 60 * 1000) < ORANGE_BTC_DROP_4H_PCT →
      guardLiq st price now = 0 := by
    intro h4
    have h4g : getBtcDropOverWindow (guardRecord st price now).btcPriceHistory now
        (4 * 60 * 60 * 1000) < ORANGE_BTC_DROP_4H_PCT := h4
    simp only [guardLiq, fetchHourlyLiquidations]
    rw [if_neg (not_le.mpr h4g)]
  refine ⟨?_, ?_, ?_, ?_⟩
  · intro hred
    simp only [runMarketGuardCheck]
    rw [if_pos hred, setAlert_level]
  · intro hnred h4
    simp only [runMarketGuardCheck]
    rw [if_neg hnred, if_pos (by rw [hliq_hi h4]; decide), setAlert_level]
  · intro hnred h4 h1
    simp only [runMarketGuardCheck]
    rw [if_neg hnred, if_neg (by rw [hliq_lo h4]; decide), if_pos h1, setAlert_level]
  · intro hnred h4 h1
    simp only [runMarketGuardCheck]
    rw [if_neg hnred, if_neg (by rw [hliq_lo h4]; decide), if_neg (not_le.mpr h1)]
    exact checkIfStable_level_cases _ _ _ _ _

/-- C6 (witness): the amended theorem's RED case at a concrete history — a
price of 100 recorded inside the 30-minute window followed by 94 gives a
30-minute drop of 6% ≥ 5% and a transition to RED. -/
theorem C6_witness :
    (runMarketGuardCheck guard30m (some 94) 18000000).currentAlertLevel = .RED :=
  (C6_guard_priority guard30m 94 18000000).1
    (by
      left
      simp only [guardDrop, guardRecord, recordBtcPrice, recordBtcVolatility,
        getBtcDropOverWindow, guard4h, guard30m, List.dropWhile, List.filter,
        RED_BTC_DROP_30M_PCT]
      norm_num)

/-- The behavior of the stability check at a non-`NONE` level: a stable cycle
(1h and 30m drops below 1%, proxy below its minor 50M threshold) accumulates
one check interval and clears to `NONE` at 4 accumulated hours (resetting the
accumulator); a non-stable cycle resets the accumulator and keeps the level. -/
theorem checkIfStable_spec (st : GuardState) (d1 d30 : ℚ) (liq now : Nat)
    (hL : st.currentAlertLevel ≠ .NONE) :
    ((d1 < 1 ∧ d30 < 1 ∧ liq < 50000000) →
      (ALL_CLEAR_STABLE_HOURS ≤ st.stableHoursCount + (CHECK_INTERVAL_MS : ℚ) / (60 * 60 * 1000) →
        (checkIfStable st d1 d30 liq now).currentAlertLevel = .NONE ∧
        (checkIfStable st d1 d30 liq now).stableHoursCount = 0) ∧
      (st.stableHoursCount + (CHECK_INTERVAL_MS : ℚ) / (60 * 60 * 1000) < ALL_CLEAR_STABLE_HOURS →
        (checkIfStable st d1 d30 liq now).currentAlertLevel = st.currentAlertLevel ∧
        (checkIfStable st d1 d30 liq now).stableHoursCount
          = st.stableHoursCount + (CHECK_INTERVAL_MS : ℚ) / (60 * 60 * 1000))) ∧
    (¬(d1 < 1 ∧ d30 < 1 ∧ liq < 50000000) →
      (checkIfStable st d1 d30 liq now).currentAlertLevel = st.currentAlertLevel ∧
      (checkIfStable st d1 d30 liq now).stableHoursCount = 0) := by
  simp only [checkIfStable]
  rw [if_neg hL]
  constructor
  · intro hstable
    rw [if_pos hstable]
    constructor
    · intro hge
      rw [if_pos hge]
      unfold setAlert
      rw [if_neg (fun hh => hL hh.symm), if_pos rfl]
      exact ⟨rfl, rfl⟩
    · intro hlt
      rw [if_neg (not_le.mpr hlt)]
      exact ⟨rfl, rfl⟩
  · intro hns
    rw [if_neg hns]
    exact ⟨rfl, rfl⟩

/-- C7 (confirmed): in every check cycle that obtains a price, matches no
alert threshold, and starts at a level other than `NONE`, the stability check
runs: when the 1-hour and 30-minute drops are below 1% and the liquidation
proxy is below its minor 50M threshold, the stable-duration accumulator grows
by the check interval (5 minutes = 1/12 hour) and, once it reaches 4 hours,
the level transitions to `NONE` with the accumulator reset; otherwise the
accumulator is reset to zero and the level is unchanged. -/
theorem C7_stability_accumulator (st : GuardState) (price : ℚ) (now : Nat)
    (hnred : ¬guardRedCond st price now)
    (ho : guardLiq st price now < ORANGE_LIQUIDATION_USD)
    (hy : guardDrop st price now (60 * 60 * 1000) < YELLOW_BTC_DROP_1H_PCT)
    (hL : st.currentAlertLevel ≠ .NONE) :
    ((guardDrop st price now (60 * 60 * 1000) < 1 ∧
        guardDrop st price now (30 * 60 * 1000) < 1 ∧ guardLiq st price now < 50000000) →
      (ALL_CLEAR_STABLE_HOURS ≤ st.stableHoursCount + (CHECK_INTERVAL_MS : ℚ) / (60 * 60 * 1000) →
        (runMarketGuardCheck st (some price) now).currentAlertLevel = .NONE ∧
        (runMarketGuardCheck st (some price) now).stableHoursCount = 0) ∧
      (st.stableHoursCount + (CHECK_INTERVAL_MS : ℚ) / (60 * 60 * 1000) < ALL_CLEAR_STABLE_HOURS →
        (runMarketGuardCheck st (some price) now).currentAlertLevel = st.currentAlertLevel ∧
        (runMarketGuardCheck st (some price) now).stableHoursCount
          = st.stableHoursCount + (CHECK_INTERVAL_MS : ℚ) / (60 * 60 * 1000))) ∧
    (¬(guardDrop st price now (60 * 60 * 1000) < 1 ∧
        guardDrop st price now (30 * 60 * 1000) < 1 ∧ guardLiq st price now < 50000000) →
      (runMarketGuardCheck st (some price) now).currentAlertLevel = st.currentAlertLevel ∧
      (runMarketGuardCheck st (some price) now).stableHoursCount = 0) := by
  have hR : runMarketGuardCheck st (some price) now
      = checkIfStable (guardRecord st price now) (guardDrop st price now (60 * 60 * 1000))
          (guardDrop st price now (30 * 60 * 1000)) (guardLiq st price now) now := by
    simp only [runMarketGuardCheck]
    rw [if_neg hnred, if_neg (not_le.mpr ho), if_neg (not_le.mpr hy)]
  rw [hR]
  exact checkIfStable_spec (guardRecord st price now) _ _ _ _ hL

/-- C7 (witness): a YELLOW state with 3.95 accumulated stable hours, a flat
price (all drops 0, proxy 0), reaches 4 hours this cycle and de-escalates to
`NONE` with the accumulator reset. -/
theorem C7_witness :
    (runMarketGuardCheck guardYellowStable (some 100) 18000000).currentAlertLevel = .NONE ∧
    (runMarketGuardCheck guardYellowStable (some 100) 18000000).stableHoursCount = 0 := by
  have hd1 : guardDrop guardYellowStable 100 18000000 (60 * 60 * 1000) = 0 := by
    simp only [guardDrop, guardRecord, recordBtcPrice, recordBtcVolatility, getBtcDropOverWindow,
      guardYellowStable, guard30m, guard4h, List.dropWhile, List.filter]
    norm_num
  have hd30 : guardDrop guardYellowStable 100 18000000 (30 * 60 * 1000) = 0 := by
    simp only [guardDrop, guardRecord, recordBtcPrice, recordBtcVolatility, getBtcDropOverWindow,
      guardYellowStable, guard30m, guard4h, List.dropWhile, List.filter]
    norm_num
  have hd4 : guardDrop guardYellowStable 100 18000000 (4 * 60 * 60 * 1000) = 0 := by
    simp only [guardDrop, guardRecord, recordBtcPrice, recordBtcVolatility, getBtcDropOverWindow,
      guardYellowStable, guard30m, guard4h, List.dropWhile, List.filter]
    norm_num
  have hliq : guardLiq guardYellowStable 100 18000000 = 0 := by
    simp only [guardLiq, fetchHourlyLiquidations]
    rw [if_neg]
    rw [show getBtcDropOverWindow (guardRecord guardYellowStable 100 18000000).btcPriceHistory
        18000000 (4 * 60 * 60 * 1000) = guardDrop guardYellowStable 100 18000000
        (4 * 60 * 60 * 1000) from rfl, hd4]
    norm_num [ORANGE_BTC_DROP_4H_PCT]
  have hnred : ¬guardRedCond guardYellowStable 100 18000000 := by
    intro hred
    rcases hred with h30 | ⟨hb, _⟩
    · rw [hd30] at h30
      norm_num [RED_BTC_DROP_30M_PCT] at h30
    · simp only [baselineTruthy, guardRecord, recordBtcPrice, recordBtcVolatility,
        guardYellowStable, guard30m, guard4h, List.dropWhile, List.filter] at hb
      norm_num at hb
  obtain ⟨hstable, _⟩ := C7_stability_accumulator guardYellowStable 100 18000000 hnred
    (by rw [hliq]; decide) (by rw [hd1]; norm_num [YELLOW_BTC_DROP_1H_PCT]) (by decide)
  have hcond : guardDrop guardYellowStable 100 18000000 (60 * 60 * 1000) < 1 ∧
      guardDrop guardYellowStable 100 18000000 (30 * 60 * 1000) < 1 ∧
      guardLiq guardYellowStable 100 18000000 < 50000000 := by
    rw [hd1, hd30, hliq]
    norm_num
  exact (hstable hcond).1 (by
    norm_num [guardYellowStable, guard30m, guard4h, ALL_CLEAR_STABLE_HOURS, CHECK_INTERVAL_MS])

-- ── C8: consecutive-stop detector and lazy pause expiry ──────────────────────

/-- C8 (confirmed): on every stop-loss close reaching the detector, `now` is
appended, entries older than the 30-minute window are dropped, and if the
remaining count reaches the threshold of 2 a pause expiring 90 minutes out is
set and the recent list is cleared; below the threshold the pruned list is
saved and the pause is untouched.  A pause read at or past its expiry is
reported inactive and cleared lazily; a pause read before expiry is reported
active with no change. -/
theorem C8_consecutive_stop_detector (st : CooldownState) (now : Nat) :
    (let recent := (st.recentStopLosses ++ [now]).filter
        (fun ts => now - CONSECUTIVE_STOP_WINDOW_MS ≤ ts)
     (CONSECUTIVE_STOP_THRESHOLD ≤ recent.length →
        (recordStopLossForConsecutiveCheck st now).consecutiveStopPauseUntil
            = some (now + CONSECUTIVE_STOP_PAUSE_MS) ∧
        (recordStopLossForConsecutiveCheck st now).recentStopLosses = []) ∧
     (recent.length < CONSECUTIVE_STOP_THRESHOLD →
        (recordStopLossForConsecutiveCheck st now).recentStopLosses = recent ∧
        (recordStopLossForConsecutiveCheck st now).consecutiveStopPauseUntil
            = st.consecutiveStopPauseUntil)) ∧
    (∀ p, st.consecutiveStopPauseUntil = some p →
      (now < p → isConsecutiveStopPauseActive st now = (true, st)) ∧
      (p ≤ now → isConsecutiveStopPauseActive st now
          = (false, clearConsecutiveStopPause st))) := by
  constructor
  · constructor
    · intro hth
      simp only [recordStopLossForConsecutiveCheck, setConsecutiveStopPause]
      rw [if_pos hth]
      exact ⟨rfl, rfl⟩
    · intro hth
      simp only [recordStopLossForConsecutiveCheck]
      rw [if_neg (not_le.mpr hth)]
      exact ⟨rfl, rfl⟩
  · intro p hp
    constructor
    · intro hlt
      simp only [isConsecutiveStopPauseActive, hp]
      rw [if_pos hlt]
    · intro hge
      simp only [isConsecutiveStopPauseActive, hp]
      rw [if_neg (not_lt.mpr hge)]

/-- C8 (witness): a second stop 15 minutes after the first triggers the pause
(expiry 90 minutes out, list cleared); the pause reads active before its
expiry and is cleared lazily when read at the expiry. -/
theorem C8_witness :
    ((recordStopLossForConsecutiveCheck cdOneStop 1800000).consecutiveStopPauseUntil
        = some (1800000 + CONSECUTIVE_STOP_PAUSE_MS) ∧
      (recordStopLossForConsecutiveCheck cdOneStop 1800000).recentStopLosses = []) ∧
    isConsecutiveStopPauseActive cdPaused 1800000 = (true, cdPaused) ∧
    isConsecutiveStopPauseActive cdPaused 7200000
      = (false, clearConsecutiveStopPause cdPaused) := by
  refine ⟨(C8_consecutive_stop_detector cdOneStop 1800000).1.1 (by decide), ?_, ?_⟩
  · exact ((C8_consecutive_stop_detector cdPaused 1800000).2 7200000 rfl).1 (by decide)
  · exact ((C8_consecutive_stop_detector cdPaused 7200000).2 7200000 rfl).2 (by decide)

-- ── C9: highest-price invariant ──────────────────────────────────────────────

/-- C9 (confirmed): creation initialises `highest_price` to the entry price,
and the monitor's merge is monotone: for an active position with a positive
entry price and `highest_price ≥ entry_price`, the merged `highest_price`
never decreases, stays at or above the entry price, and changes only to the
observed price when that price strictly exceeds the previous high. -/
theorem C9_highest_price_invariant (s : TradeStore) (newId now : Nat) (d : CreateData)
    (t : Trade) (p q : ℚ)
    (hact : t.status = .active) (hentry : 0 < t.entry_price)
    (hinv : t.entry_price ≤ t.highest_price) :
    ((createTrade s newId now d).2.highest_price = d.entry_price) ∧
    (t.highest_price ≤ (monitorHighestUpdate t p q t).highest_price ∧
      t.entry_price ≤ (monitorHighestUpdate t p q t).highest_price ∧
      ((monitorHighestUpdate t p q t).highest_price ≠ t.highest_price →
        t.highest_price < p ∧ (monitorHighestUpdate t p q t).highest_price = p)) := by
  refine ⟨rfl, ?_⟩
  have hne : t.highest_price ≠ 0 := ne_of_gt (lt_of_lt_of_le hentry hinv)
  simp only [monitorHighestUpdate, jsOrQ, if_neg hne]
  by_cases hlt : t.highest_price < p
  · rw [if_pos hlt]
    exact ⟨le_of_lt hlt, le_trans hinv (le_of_lt hlt), fun _ => ⟨hlt, rfl⟩⟩
  · rw [if_neg hlt]
    exact ⟨le_refl _, hinv, fun hne2 => absurd rfl hne2⟩

/-- C9 (witness): the invariant theorem at the concrete active scalp position
(entry 1, high 1) observed at price 2. -/
theorem C9_witness :
    ((createTrade scalpStore 2 0 momCreate).2.highest_price = momCreate.entry_price) ∧
    (scalpTrade.highest_price ≤ (monitorHighestUpdate scalpTrade 2 100 scalpTrade).highest_price ∧
      scalpTrade.entry_price ≤ (monitorHighestUpdate scalpTrade 2 100 scalpTrade).highest_price ∧
      ((monitorHighestUpdate scalpTrade 2 100 scalpTrade).highest_price
          ≠ scalpTrade.highest_price →
        scalpTrade.highest_price < 2 ∧
          (monitorHighestUpdate scalpTrade 2 100 scalpTrade).highest_price = 2)) :=
  C9_highest_price_invariant scalpStore 2 0 momCreate scalpTrade 2 100 (by decide) (by decide)
    (by decide)

-- ── C10: cooldown written before the sell, not rolled back on failure ────────

/-- C10 (confirmed): on both monitors' momentum stop-loss and guard-tightened
paths the cooldown register is written before the sell is attempted, so when
the sell fails the position's ledger fields are unchanged — status still
`active`, exit time, held quantity, partial-exit flag and aggregate state as
before — yet the token's stop-loss cooldown timestamp `now` is already
recorded and not rolled back. -/
theorem C10_cooldown_written_before_failed_sell (sys : SysState) (trade : Trade)
    (token : TokenData) (price : ℚ) (settings : Settings) (guard : AlertLevel)
    (now today : Nat) (t0 : Trade)
    (hm : trade.strategy = .momentum)
    (h : findTrade sys.store.trades trade.id = some t0)
    (hact : t0.status = .active)
    (hp : price ≠ 0) :
    (pnlPercentOf trade token.price_usd ≤ -(effStopLoss trade settings * (1 / 2)) →
      (checkTradeExit sys trade (some token) settings .ORANGE false now today).toOption.map
          (fun o => (o.sys.cooldowns.stopLossCooldowns trade.token_address,
            tradeStatus o.sys.store trade.id, tradeExitTime o.sys.store trade.id,
            (findTrade o.sys.store.trades trade.id).map Trade.token_amount,
            (findTrade o.sys.store.trades trade.id).map Trade.partial_exit_executed,
            o.sys.store.state))
        = some (some now, some .active, some t0.exit_time, some t0.token_amount,
            some t0.partial_exit_executed, sys.store.state)) ∧
    (¬redRule trade guard → ¬orangeRule trade settings guard token.price_usd →
      ¬trailingRule trade settings token.price_usd →
      stopLossRule trade settings token.price_usd →
      (checkTradeExit sys trade (some token) settings guard false now today).toOption.map
          (fun o => (o.sys.cooldowns.stopLossCooldowns trade.token_address,
            tradeStatus o.sys.store trade.id, tradeExitTime o.sys.store trade.id,
            (findTrade o.sys.store.trades trade.id).map Trade.token_amount,
            (findTrade o.sys.store.trades trade.id).map Trade.partial_exit_executed,
            o.sys.store.state))
        = some (some now, some .active, some t0.exit_time, some t0.token_amount,
            some t0.partial_exit_executed, sys.store.state)) ∧
    (pnlPercentOf trade price ≤ -(effStopLoss trade settings * (1 / 2)) →
      (fastStopLossCheckTrade sys trade (some price) settings .ORANGE false now today).sys.store
          = sys.store ∧
      (fastStopLossCheckTrade sys trade (some price) settings .ORANGE false now
          today).sys.cooldowns.stopLossCooldowns trade.token_address = some now) ∧
    (¬redRule trade guard → ¬orangeRule trade settings guard price →
      stopLossRule trade settings price →
      (fastStopLossCheckTrade sys trade (some price) settings guard false now today).sys.store
          = sys.store ∧
      (fastStopLossCheckTrade sys trade (some price) settings guard false now
          today).sys.cooldowns.stopLossCooldowns trade.token_address = some now) := by
  have hnredO : ¬redRule trade .ORANGE := by simp [redRule, isRedAlert]
  obtain ⟨hs, he, hta, hpe⟩ := monitorUpdated_observables token.price_usd h
  refine ⟨?_, ?_, ?_, ?_⟩
  · intro hpnl
    rw [checkTradeExit_orange token settings false now today h hnredO ⟨by decide, hm, hpnl⟩]
    simp only [Except.toOption, Option.map_some', doSell_fail_sys, withMomCooldown]
    rw [recordMomentumStopLoss_lookup, hs, he, hta, hpe, hact]
    rfl
  · intro hnred hno hnt hsl
    rw [checkTradeExit_stopLoss token settings false now today h hnred hno hnt hsl]
    simp only [Except.toOption, Option.map_some', doSell_fail_sys]
    rw [stopLossRecords_cooldowns_momentum _ now hm, recordMomentumStopLoss_lookup]
    have hstore := stopLossRecords_store (monitorUpdated sys trade token.price_usd) trade now
    rw [show (stopLossRecords (monitorUpdated sys trade token.price_usd) trade now).store
        = (monitorUpdated sys trade token.price_usd).store from hstore]
    rw [hs, he, hta, hpe, hact]
    rfl
  · intro hpnl
    rw [fastCheck_orange sys trade settings false now today hp hnredO ⟨by decide, hm, hpnl⟩]
    refine ⟨rfl, ?_⟩
    simp only [doSell_fail_sys, withMomCooldown]
    rw [recordMomentumStopLoss_lookup]
  · intro hnred hno hsl
    rw [fastCheck_stopLoss sys trade settings false now today hp hnred hno hsl]
    constructor
    · rw [doSell_fail_sys, stopLossRecords_store]
    · rw [doSell_fail_sys, stopLossRecords_cooldowns_momentum _ now hm,
        recordMomentumStopLoss_lookup]

/-- C10 (witness): the slow monitor's stop-loss path at the concrete momentum
position (−21% at price 0.79) with a failed sell: the cooldown is stamped,
the position stays active and the aggregate state is unchanged. -/
theorem C10_witness :
    (checkTradeExit momSys momTrade (some tokStop) baseSettings .NONE false 1000 0).toOption.map
        (fun o => (o.sys.cooldowns.stopLossCooldowns 7,
          tradeStatus o.sys.store 1, tradeExitTime o.sys.store 1,
          (findTrade o.sys.store.trades 1).map Trade.token_amount,
          (findTrade o.sys.store.trades 1).map Trade.partial_exit_executed,
          o.sys.store.state))
      = some (some 1000, some .active, some momTrade.exit_time, some momTrade.token_amount,
          some momTrade.partial_exit_executed, momSys.store.state) := by
  obtain ⟨_, hstop, _, _⟩ := C10_cooldown_written_before_failed_sell momSys momTrade tokStop
    (1 / 2) baseSettings .NONE 1000 0 momTrade rfl (by decide) (by decide) (by norm_num)
  exact hstop (by decide) (by decide) (by decide)
    (by norm_num [stopLossRule, pnlPercentOf, effStopLoss, jsOrQ, momTrade, scalpTrade,
      baseSettings, tokStop])

end Astra
